import Mathlib

/-!
# The dpctl SYCL queue manager

A shallow embedding of `dpctl-capi/source/dpctl_sycl_queue_manager.cpp`.

* The SYCL runtime is an explicit value (`Runtime`): the answer of
  `platform::get_platforms()`, the answer of `default_selector().select_device()`
  and `device::get_platform()`.  The enumeration calls `get_platforms`,
  `get_devices` and `select_device` may raise a SYCL `runtime_error` and are
  `Except` values; `get_info`, `get_backend` and the constructors of `context`
  and `queue` are taken to return.
* The three function-local statics `get_opencl_cpu_queues`, `get_opencl_gpu_queues`
  and `get_level0_gpu_queues` are built once by `init_queues` and never written
  again, so each is the value of `init_queues` on the runtime.  Where the reuse
  of a built list is itself the property, the statics are written out as state
  (`Process`): a getter builds its list on the first call and keeps it.
* The thread-local vector behind `get_active_queues()` is the explicit state: an
  operation that writes it takes the vector and returns the new one.  Its first
  value is `init_active_queues`.
* A returned `DPCTLSyclQueueRef` is `some q` (a copy of the queue `q`) or `none`
  (`nullptr`).
* A queue handle carries the identity of the queue object it refers to
  (`queue_impl`); a copy keeps it, a construction makes a new one, and
  `operator==` on queues compares it.
* The arguments of the two C enumeration types are the integers passed; the
  enumerators are named values among them.
-/

namespace DPCTL

/-! ## SYCL runtime -/

/-- Values of `cl::sycl::backend`. -/
inductive backend where
  | host
  | opencl
  | level_zero
  | cuda
  deriving DecidableEq, Repr

/-- Values of `cl::sycl::info::device_type`. -/
inductive device_type where
  | cpu
  | gpu
  | accelerator
  | custom
  | automatic
  | host
  | all
  deriving DecidableEq, Repr

/-- Ways a call can fail to return: a SYCL `runtime_error` exception (the only
exception type the source catches), or undefined behaviour, which here is only
an unchecked `operator[]` read past the end of a vector. -/
inductive Err where
  | runtime_error
  | out_of_range
  deriving DecidableEq, Repr

deriving instance DecidableEq for Except

/-- A `cl::sycl::device` handle: `id` tells devices apart, `device_type` is the
answer of `get_info<info::device::device_type>()`. -/
structure device where
  id : Nat
  device_type : device_type
  deriving DecidableEq, Repr

/-- A `cl::sycl::context`: the devices it was constructed over. -/
structure context where
  devices : List device
  deriving DecidableEq, Repr

/-- The identity of the queue object behind a `cl::sycl::queue` handle.  A copy
of a handle refers to the same object, and every construction `queue(Ctx, d)`
makes a new one.  An object is named by the call that constructed it,
`init_queues(BE, DTy)` or `DPCTLQueueMgr_GetQueueFromContextAndDevice`, and by
its serial number, the count of the queue objects constructed before it. -/
inductive queue_impl where
  | of_init_queues (BE : backend) (DTy : device_type) (serial : Nat)
  | of_context_and_device (serial : Nat)
  deriving DecidableEq, Repr

/-- A `cl::sycl::queue` handle: the queue object it refers to, and the context
and device that object was constructed with.  Copying a handle copies the
value. -/
structure queue where
  impl : queue_impl
  ctx : context
  dev : device
  deriving DecidableEq, Repr

/-- The `operator==` of `cl::sycl::queue`: two handles compare equal when they
refer to the same queue object, that is when one is a copy of the other. -/
def queue.equals (a b : queue) : Bool := decide (a.impl = b.impl)

/-- A `cl::sycl::platform`: `is_host()`, `get_backend()` and `get_devices()`,
the last of which may raise. -/
structure platform where
  is_host : Bool
  get_backend : backend
  get_devices : Except Err (List device)

/-- The SYCL runtime as the manager sees it; `constructed` is the number of
queue objects constructed so far, the serial number of the next one. -/
structure Runtime where
  get_platforms : Except Err (List platform)
  select_device : Except Err device
  get_platform : device → platform
  constructed : Nat

/-- The vector type `QMgrHelper::QVec = vector_class<queue>`. -/
abbrev QVec := List queue

/-- Unchecked `operator[]` of `std::vector`: reading at or past `size()` is
undefined behaviour. -/
def QVec.subscript (v : QVec) (i : Nat) : Except Err queue :=
  match v[i]? with
  | some q => .ok q
  | none => .error Err.out_of_range

/-- Assignment `v[0] = q` through the unchecked `operator[]`. -/
def QVec.assign0 (v : QVec) (q : queue) : Except Err QVec :=
  match v with
  | [] => .error Err.out_of_range
  | _ :: rest => .ok (q :: rest)

/-! ## The C enumerations of the API -/

/-- Modelled from the spec: the backend identifier, a C enumeration whose
enumerators are flag bits.  A value of the type is the unsigned integer the
caller passes, `val`; the enumerators are named values, and nothing in the C
calling convention keeps a caller to them.  The declaration (`dpctl_sycl_enum_types.h`)
is not among the sources, only the enumerators `DPCTL_OPENCL` and
`DPCTL_LEVEL_ZERO` are named there. -/
structure DPCTLSyclBackendType where
  val : Nat
  deriving DecidableEq, Repr

/-- Modelled from the spec: the device class, a C enumeration whose enumerators
are flag bits.  A value of the type is the integer the caller passes, `val`.
The declaration (`dpctl_sycl_enum_types.h`) is not among the sources, only the
enumerators `DPCTL_CPU` and `DPCTL_GPU` are named there. -/
structure DPCTLSyclDeviceType where
  val : Nat
  deriving DecidableEq, Repr

/-- Modelled from the spec: the enumerator for no backend. -/
def DPCTLSyclBackendType.DPCTL_UNKNOWN_BACKEND : DPCTLSyclBackendType := ⟨0⟩

/-- Modelled from the spec: the enumerator of the OpenCL backend. -/
def DPCTLSyclBackendType.DPCTL_OPENCL : DPCTLSyclBackendType := ⟨1 <<< 16⟩

/-- Modelled from the spec: the enumerator of the host backend. -/
def DPCTLSyclBackendType.DPCTL_HOST : DPCTLSyclBackendType := ⟨1 <<< 15⟩

/-- Modelled from the spec: the enumerator of the Level-Zero backend. -/
def DPCTLSyclBackendType.DPCTL_LEVEL_ZERO : DPCTLSyclBackendType := ⟨1 <<< 14⟩

/-- Modelled from the spec: the enumerator of the CUDA backend. -/
def DPCTLSyclBackendType.DPCTL_CUDA : DPCTLSyclBackendType := ⟨1 <<< 13⟩

/-- Modelled from the spec: the enumerator of the CPU class. -/
def DPCTLSyclDeviceType.DPCTL_CPU : DPCTLSyclDeviceType := ⟨1 <<< 0⟩

/-- Modelled from the spec: the enumerator of the GPU class. -/
def DPCTLSyclDeviceType.DPCTL_GPU : DPCTLSyclDeviceType := ⟨1 <<< 1⟩

/-- Modelled from the spec: the enumerator of the accelerator class. -/
def DPCTLSyclDeviceType.DPCTL_ACCELERATOR : DPCTLSyclDeviceType := ⟨1 <<< 2⟩

/-- Modelled from the spec: the enumerator of the host-device class. -/
def DPCTLSyclDeviceType.DPCTL_HOST_DEVICE : DPCTLSyclDeviceType := ⟨1 <<< 3⟩

/-- The integer value of a backend identifier, as the integral promotion in
`BETy | DeviceTy` takes it. -/
def DPCTLSyclBackendType.toNat (BETy : DPCTLSyclBackendType) : Nat := BETy.val

/-- The integer value of a device class, as the integral promotion in
`BETy | DeviceTy` takes it. -/
def DPCTLSyclDeviceType.toNat (DeviceTy : DPCTLSyclDeviceType) : Nat := DeviceTy.val

/-- The enumerators of the backend identifier. -/
def DPCTLSyclBackendType.enumerators : List DPCTLSyclBackendType :=
  [DPCTLSyclBackendType.DPCTL_UNKNOWN_BACKEND, DPCTLSyclBackendType.DPCTL_OPENCL,
    DPCTLSyclBackendType.DPCTL_HOST, DPCTLSyclBackendType.DPCTL_LEVEL_ZERO,
    DPCTLSyclBackendType.DPCTL_CUDA]

/-- The enumerators of the device class. -/
def DPCTLSyclDeviceType.enumerators : List DPCTLSyclDeviceType :=
  [DPCTLSyclDeviceType.DPCTL_CPU, DPCTLSyclDeviceType.DPCTL_GPU,
    DPCTLSyclDeviceType.DPCTL_ACCELERATOR, DPCTLSyclDeviceType.DPCTL_HOST_DEVICE]

open DPCTLSyclBackendType DPCTLSyclDeviceType

/-- The value switched on, `BETy | DeviceTy`. -/
def switch_key (BETy : DPCTLSyclBackendType) (DeviceTy : DPCTLSyclDeviceType) : Nat :=
  BETy.toNat ||| DeviceTy.toNat

/-- The case label `DPCTL_OPENCL | DPCTL_CPU`. -/
def case_opencl_cpu : Nat := DPCTL_OPENCL.toNat ||| DPCTL_CPU.toNat

/-- The case label `DPCTL_OPENCL | DPCTL_GPU`. -/
def case_opencl_gpu : Nat := DPCTL_OPENCL.toNat ||| DPCTL_GPU.toNat

/-- The case label `DPCTL_LEVEL_ZERO | DPCTL_GPU`. -/
def case_level0_gpu : Nat := DPCTL_LEVEL_ZERO.toNat ||| DPCTL_GPU.toNat

/-! ## QMgrHelper -/

namespace QMgrHelper

/-- The body of the loop `for (auto &p : Platforms)` of `init_queues`, run over
the platforms still to visit with the vector `queues` built so far.  The
`break` of the single-device branch ends the loop.  Each `emplace_back(Ctx, d)`
constructs a new queue object: `constructed` of them exist before the call, and
`queues` holds the ones the call has made so far. -/
def init_queues_loop (constructed : Nat) (BE : backend) (DTy : device_type) :
    List platform → QVec → Except Err QVec
  | [], queues => .ok queues
  | p :: rest, queues =>
    if p.is_host then init_queues_loop constructed BE DTy rest queues
    else
      let be := p.get_backend
      match p.get_devices with
      | .error e => .error e
      | .ok Devices =>
        match Devices with
        | [d] =>
          if d.device_type = DTy ∧ be = BE then
            .ok (queues ++ [queue.mk
              (queue_impl.of_init_queues BE DTy (constructed + queues.length))
              (context.mk [d]) d])
          else init_queues_loop constructed BE DTy rest queues
        | _ =>
          let SelectedDevices := Devices.filter (fun d => d.device_type = DTy ∧ be = BE)
          match SelectedDevices with
          | d :: _ =>
            init_queues_loop constructed BE DTy rest (queues ++ [queue.mk
              (queue_impl.of_init_queues BE DTy (constructed + queues.length))
              (context.mk SelectedDevices) d])
          | [] => init_queues_loop constructed BE DTy rest queues

/-- The function `QMgrHelper::init_queues`. -/
def init_queues (R : Runtime) (BE : backend) (DTy : device_type) : Except Err QVec :=
  match R.get_platforms with
  | .error e => .error e
  | .ok Platforms => init_queues_loop R.constructed BE DTy Platforms []

/-- The static of `get_opencl_cpu_queues`. -/
def get_opencl_cpu_queues (R : Runtime) : Except Err QVec :=
  init_queues R backend.opencl device_type.cpu

/-- The static of `get_opencl_gpu_queues`. -/
def get_opencl_gpu_queues (R : Runtime) : Except Err QVec :=
  init_queues R backend.opencl device_type.gpu

/-- The static of `get_level0_gpu_queues`. -/
def get_level0_gpu_queues (R : Runtime) : Except Err QVec :=
  init_queues R backend.level_zero device_type.gpu

/-- The `try` block of `init_active_queues`. -/
def init_active_queues_try (R : Runtime) : Except Err QVec :=
  match R.select_device with
  | .error e => .error e
  | .ok def_device =>
    let BE := (R.get_platform def_device).get_backend
    let DevTy := def_device.device_type
    if BE = backend.opencl ∧ DevTy = device_type.cpu then
      (get_opencl_cpu_queues R).bind fun qs => (QVec.subscript qs 0).bind fun q => .ok [q]
    else if BE = backend.opencl ∧ DevTy = device_type.gpu then
      (get_opencl_gpu_queues R).bind fun qs => (QVec.subscript qs 0).bind fun q => .ok [q]
    else if BE = backend.level_zero ∧ DevTy = device_type.gpu then
      (get_level0_gpu_queues R).bind fun qs => (QVec.subscript qs 0).bind fun q => .ok [q]
    else .ok []

/-- The function `QMgrHelper::init_active_queues`: the `catch (runtime_error &)`
clause turns a `runtime_error` of the `try` block into the empty vector. -/
def init_active_queues (R : Runtime) : Except Err QVec :=
  match init_active_queues_try R with
  | .error Err.runtime_error => .ok []
  | r => r

/-- The function `QMgrHelper::getCurrentQueue`. -/
def getCurrentQueue (activated_q : QVec) : Except Err (Option queue) :=
  if activated_q.isEmpty then .ok none
  else
    let last := activated_q.length - 1
    (QVec.subscript activated_q last).bind fun q => .ok (some q)

/-- The function `QMgrHelper::getQueue`. -/
def getQueue (R : Runtime) (BETy : DPCTLSyclBackendType) (DeviceTy : DPCTLSyclDeviceType)
    (DNum : Nat) : Except Err (Option queue) :=
  if switch_key BETy DeviceTy = case_opencl_cpu then
    (get_opencl_cpu_queues R).bind fun cpuQs =>
      if DNum ≥ cpuQs.length then .ok none
      else (QVec.subscript cpuQs DNum).bind fun q => .ok (some q)
  else if switch_key BETy DeviceTy = case_opencl_gpu then
    (get_opencl_gpu_queues R).bind fun gpuQs =>
      if DNum ≥ gpuQs.length then .ok none
      else (QVec.subscript gpuQs DNum).bind fun q => .ok (some q)
  else if switch_key BETy DeviceTy = case_level0_gpu then
    (get_level0_gpu_queues R).bind fun l0GpuQs =>
      if DNum ≥ l0GpuQs.length then .ok none
      else (QVec.subscript l0GpuQs DNum).bind fun q => .ok (some q)
  else .ok none

/-- The function `QMgrHelper::isCurrentQueue`. -/
def isCurrentQueue (activated_q : QVec) (QRef : queue) : Except Err Bool :=
  if activated_q.isEmpty then .ok false
  else
    let last := activated_q.length - 1
    (QVec.subscript activated_q last).bind fun currQ => .ok (QRef.equals currQ)

/-- The function `QMgrHelper::setAsDefaultQueue`: the returned pair is the
handle given back and the vector of active queues after the call. -/
def setAsDefaultQueue (R : Runtime) (BETy : DPCTLSyclBackendType)
    (DeviceTy : DPCTLSyclDeviceType) (DNum : Nat) (activeQ : QVec) :
    Except Err (Option queue × QVec) :=
  if activeQ.isEmpty then .ok (none, activeQ)
  else if switch_key BETy DeviceTy = case_opencl_cpu then
    (get_opencl_cpu_queues R).bind fun oclcpu_q =>
      if DNum ≥ oclcpu_q.length then .ok (none, activeQ)
      else (QVec.subscript oclcpu_q DNum).bind fun q => (QVec.assign0 activeQ q).bind fun activeQ1 =>
        (QVec.subscript activeQ1 0).bind fun r => .ok (some r, activeQ1)
  else if switch_key BETy DeviceTy = case_opencl_gpu then
    (get_opencl_gpu_queues R).bind fun oclgpu_q =>
      if DNum ≥ oclgpu_q.length then .ok (none, activeQ)
      else (QVec.subscript oclgpu_q DNum).bind fun q => (QVec.assign0 activeQ q).bind fun activeQ1 =>
        (QVec.subscript activeQ1 0).bind fun r => .ok (some r, activeQ1)
  else if switch_key BETy DeviceTy = case_level0_gpu then
    (get_level0_gpu_queues R).bind fun l0gpu_q =>
      if DNum ≥ l0gpu_q.length then .ok (none, activeQ)
      else (QVec.subscript l0gpu_q DNum).bind fun q => (QVec.assign0 activeQ q).bind fun activeQ1 =>
        (QVec.subscript activeQ1 0).bind fun r => .ok (some r, activeQ1)
  else .ok (none, activeQ)

/-- The function `QMgrHelper::pushSyclQueue`: the returned pair is the handle
given back and the vector of active queues after the call. -/
def pushSyclQueue (R : Runtime) (BETy : DPCTLSyclBackendType)
    (DeviceTy : DPCTLSyclDeviceType) (DNum : Nat) (activeQ : QVec) :
    Except Err (Option queue × QVec) :=
  if activeQ.isEmpty then .ok (none, activeQ)
  else if switch_key BETy DeviceTy = case_opencl_cpu then
    (get_opencl_cpu_queues R).bind fun qs =>
      if DNum ≥ qs.length then .ok (none, activeQ)
      else (QVec.subscript qs DNum).bind fun q =>
        let activeQ1 := activeQ ++ [q]
        (QVec.subscript activeQ1 (activeQ1.length - 1)).bind fun r => .ok (some r, activeQ1)
  else if switch_key BETy DeviceTy = case_opencl_gpu then
    (get_opencl_gpu_queues R).bind fun qs =>
      if DNum ≥ qs.length then .ok (none, activeQ)
      else (QVec.subscript qs DNum).bind fun q =>
        let activeQ1 := activeQ ++ [q]
        (QVec.subscript activeQ1 (activeQ1.length - 1)).bind fun r => .ok (some r, activeQ1)
  else if switch_key BETy DeviceTy = case_level0_gpu then
    (get_level0_gpu_queues R).bind fun qs =>
      if DNum ≥ qs.length then .ok (none, activeQ)
      else (QVec.subscript qs DNum).bind fun q =>
        let activeQ1 := activeQ ++ [q]
        (QVec.subscript activeQ1 (activeQ1.length - 1)).bind fun r => .ok (some r, activeQ1)
  else .ok (none, activeQ)

/-- The function `QMgrHelper::popSyclQueue`: the vector of active queues after
the call. -/
def popSyclQueue (active_queues : QVec) : QVec :=
  if active_queues.length ≤ 1 then active_queues
  else active_queues.dropLast

end QMgrHelper

/-! ## Public API -/

/-- The function `DPCTLQueueMgr_GetNumActivatedQueues`. -/
def DPCTLQueueMgr_GetNumActivatedQueues (active_queues : QVec) : Nat :=
  if active_queues.isEmpty then 0
  else active_queues.length - 1

/-- The function `DPCTLQueueMgr_GetNumQueues`. -/
def DPCTLQueueMgr_GetNumQueues (R : Runtime) (BETy : DPCTLSyclBackendType)
    (DeviceTy : DPCTLSyclDeviceType) : Except Err Nat :=
  if switch_key BETy DeviceTy = case_opencl_cpu then
    (QMgrHelper.get_opencl_cpu_queues R).bind fun qs => .ok qs.length
  else if switch_key BETy DeviceTy = case_opencl_gpu then
    (QMgrHelper.get_opencl_gpu_queues R).bind fun qs => .ok qs.length
  else if switch_key BETy DeviceTy = case_level0_gpu then
    (QMgrHelper.get_level0_gpu_queues R).bind fun qs => .ok qs.length
  else .ok 0

/-- The function `DPCTLQueueMgr_GetCurrentQueue`. -/
def DPCTLQueueMgr_GetCurrentQueue (active_queues : QVec) : Except Err (Option queue) :=
  QMgrHelper.getCurrentQueue active_queues

/-- The function `DPCTLQueueMgr_GetQueue`. -/
def DPCTLQueueMgr_GetQueue (R : Runtime) (BETy : DPCTLSyclBackendType)
    (DeviceTy : DPCTLSyclDeviceType) (DNum : Nat) : Except Err (Option queue) :=
  QMgrHelper.getQueue R BETy DeviceTy DNum

/-- The function `DPCTLQueueMgr_IsCurrentQueue`. -/
def DPCTLQueueMgr_IsCurrentQueue (active_queues : QVec) (QRef : queue) : Except Err Bool :=
  QMgrHelper.isCurrentQueue active_queues QRef

/-- The function `DPCTLQueueMgr_SetAsDefaultQueue`. -/
def DPCTLQueueMgr_SetAsDefaultQueue (R : Runtime) (BETy : DPCTLSyclBackendType)
    (DeviceTy : DPCTLSyclDeviceType) (DNum : Nat) (active_queues : QVec) :
    Except Err (Option queue × QVec) :=
  QMgrHelper.setAsDefaultQueue R BETy DeviceTy DNum active_queues

/-- The function `DPCTLQueueMgr_PushQueue`. -/
def DPCTLQueueMgr_PushQueue (R : Runtime) (BETy : DPCTLSyclBackendType)
    (DeviceTy : DPCTLSyclDeviceType) (DNum : Nat) (active_queues : QVec) :
    Except Err (Option queue × QVec) :=
  QMgrHelper.pushSyclQueue R BETy DeviceTy DNum active_queues

/-- The function `DPCTLQueueMgr_PopQueue`. -/
def DPCTLQueueMgr_PopQueue (active_queues : QVec) : QVec :=
  QMgrHelper.popSyclQueue active_queues

/-- The three (backend, class) pairs that have a case label in the dispatch. -/
inductive SupportedPair where
  | opencl_cpu
  | opencl_gpu
  | level0_gpu
  deriving DecidableEq, Repr

/-- The backend enumerator of a supported pair. -/
def SupportedPair.BETy : SupportedPair → DPCTLSyclBackendType
  | .opencl_cpu => DPCTL_OPENCL
  | .opencl_gpu => DPCTL_OPENCL
  | .level0_gpu => DPCTL_LEVEL_ZERO

/-- The device-class enumerator of a supported pair. -/
def SupportedPair.DeviceTy : SupportedPair → DPCTLSyclDeviceType
  | .opencl_cpu => DPCTL_CPU
  | .opencl_gpu => DPCTL_GPU
  | .level0_gpu => DPCTL_GPU

/-- The cached list of queues a supported pair is served from. -/
def SupportedPair.queues (R : Runtime) : SupportedPair → Except Err QVec
  | .opencl_cpu => QMgrHelper.get_opencl_cpu_queues R
  | .opencl_gpu => QMgrHelper.get_opencl_gpu_queues R
  | .level0_gpu => QMgrHelper.get_level0_gpu_queues R

/-- The SYCL backend of a supported pair. -/
def SupportedPair.backend : SupportedPair → backend
  | .opencl_cpu => backend.opencl
  | .opencl_gpu => backend.opencl
  | .level0_gpu => backend.level_zero

/-- The SYCL device type of a supported pair. -/
def SupportedPair.device_type : SupportedPair → device_type
  | .opencl_cpu => DPCTL.device_type.cpu
  | .opencl_gpu => DPCTL.device_type.gpu
  | .level0_gpu => DPCTL.device_type.gpu

/-- Whether (backend, class) is supported, that is served by one of the three
case labels of the dispatch: its switched value `BETy | DeviceTy` is that of
(OpenCL, CPU), (OpenCL, GPU) or (Level-Zero, GPU). -/
def supported (BETy : DPCTLSyclBackendType) (DeviceTy : DPCTLSyclDeviceType) : Bool :=
  decide (switch_key BETy DeviceTy = case_opencl_cpu) ||
    decide (switch_key BETy DeviceTy = case_opencl_gpu) ||
    decide (switch_key BETy DeviceTy = case_level0_gpu)

/-- A call of one of the public operations that read or write the activation
stack or the cached lists. -/
inductive Op where
  | get_current
  | get_queue (BETy : DPCTLSyclBackendType) (DeviceTy : DPCTLSyclDeviceType) (DNum : Nat)
  | is_current (QRef : queue)
  | set_default_queue (BETy : DPCTLSyclBackendType) (DeviceTy : DPCTLSyclDeviceType) (DNum : Nat)
  | push_queue (BETy : DPCTLSyclBackendType) (DeviceTy : DPCTLSyclDeviceType) (DNum : Nat)
  | pop_queue

/-- The activation stack after one call that returns. -/
def Op.step (R : Runtime) : Op → QVec → Except Err QVec
  | .get_current, s => (DPCTLQueueMgr_GetCurrentQueue s).bind fun _ => .ok s
  | .get_queue BETy DeviceTy DNum, s =>
    (DPCTLQueueMgr_GetQueue R BETy DeviceTy DNum).bind fun _ => .ok s
  | .is_current QRef, s => (DPCTLQueueMgr_IsCurrentQueue s QRef).bind fun _ => .ok s
  | .set_default_queue BETy DeviceTy DNum, s =>
    (DPCTLQueueMgr_SetAsDefaultQueue R BETy DeviceTy DNum s).bind fun r => .ok r.2
  | .push_queue BETy DeviceTy DNum, s =>
    (DPCTLQueueMgr_PushQueue R BETy DeviceTy DNum s).bind fun r => .ok r.2
  | .pop_queue, s => .ok (DPCTLQueueMgr_PopQueue s)

/-- The activation stack after a sequence of calls, each of which returns. -/
def run (R : Runtime) : List Op → QVec → Except Err QVec
  | [], s => .ok s
  | op :: ops, s => (op.step R s).bind fun s1 => run R ops s1

/-- The call `pop_queue` made `n` times in a row. -/
def pop_times : Nat → QVec → QVec
  | 0, s => s
  | n + 1, s => pop_times n (DPCTLQueueMgr_PopQueue s)

/-- Whether (backend, class, index) is valid: a supported pair with
`index < get_num_queues(backend, class)`. -/
def valid_selector (R : Runtime) (BETy : DPCTLSyclBackendType) (DeviceTy : DPCTLSyclDeviceType)
    (DNum : Nat) : Bool :=
  supported BETy DeviceTy &&
    match DPCTLQueueMgr_GetNumQueues R BETy DeviceTy with
    | .ok n => decide (DNum < n)
    | .error _ => false

/-- The call `push_queue` made once for each (backend, class, index) of a list,
in order: the stack after the last call when every call returned a queue,
`none` when one of them returned `nullptr`. -/
def push_all (R : Runtime) :
    List (DPCTLSyclBackendType × DPCTLSyclDeviceType × Nat) → QVec → Except Err (Option QVec)
  | [], s => .ok (some s)
  | a :: rest, s =>
    (DPCTLQueueMgr_PushQueue R a.1 a.2.1 a.2.2 s).bind fun r =>
      match r.1 with
      | none => .ok none
      | some _ => push_all R rest r.2

/-- The integer `DPCTL_OPENCL | DPCTL_LEVEL_ZERO` passed as the backend
identifier: two backend flags or-ed together. -/
def two_backends : DPCTLSyclBackendType :=
  ⟨DPCTL_OPENCL.toNat ||| DPCTL_LEVEL_ZERO.toNat⟩

/-- The integer `DPCTL_OPENCL | DPCTL_CPU` (0x10001) passed as the backend
identifier: not an enumerator, and together with the class `DPCTL_CPU` a pair
other than the three supported ones, whose or-ed key is that of (OpenCL, CPU). -/
def or_ed_backend : DPCTLSyclBackendType :=
  ⟨DPCTL_OPENCL.toNat ||| DPCTL_CPU.toNat⟩

/-! ## Sample runtimes -/

/-- A host device. -/
def sample_host_device : device := { id := 0, device_type := device_type.host }

/-- An OpenCL CPU device. -/
def sample_cpu : device := { id := 1, device_type := device_type.cpu }

/-- The first device of a two-GPU OpenCL platform. -/
def sample_gpu_a : device := { id := 2, device_type := device_type.gpu }

/-- The second device of a two-GPU OpenCL platform. -/
def sample_gpu_b : device := { id := 3, device_type := device_type.gpu }

/-- A Level-Zero GPU device. -/
def sample_l0_gpu : device := { id := 4, device_type := device_type.gpu }

/-- A CUDA GPU device. -/
def sample_cuda_gpu : device := { id := 5, device_type := device_type.gpu }

/-- The SYCL host platform. -/
def sample_host_platform : platform :=
  { is_host := true, get_backend := backend.host, get_devices := .ok [sample_host_device] }

/-- An OpenCL platform with one CPU device. -/
def sample_opencl_cpu_platform : platform :=
  { is_host := false, get_backend := backend.opencl, get_devices := .ok [sample_cpu] }

/-- An OpenCL platform with two GPU devices. -/
def sample_opencl_gpu_platform : platform :=
  { is_host := false, get_backend := backend.opencl,
    get_devices := .ok [sample_gpu_a, sample_gpu_b] }

/-- A Level-Zero platform with one GPU device. -/
def sample_level0_platform : platform :=
  { is_host := false, get_backend := backend.level_zero, get_devices := .ok [sample_l0_gpu] }

/-- A CUDA platform with one GPU device. -/
def sample_cuda_platform : platform :=
  { is_host := false, get_backend := backend.cuda, get_devices := .ok [sample_cuda_gpu] }

/-- The platform of a sample device. -/
def sample_get_platform (d : device) : platform :=
  if d.id = 1 then sample_opencl_cpu_platform
  else if d.id = 2 ∨ d.id = 3 then sample_opencl_gpu_platform
  else if d.id = 4 then sample_level0_platform
  else if d.id = 5 then sample_cuda_platform
  else sample_host_platform

/-- A machine with OpenCL CPU, OpenCL GPU and Level-Zero GPU drivers whose
default device is the OpenCL CPU. -/
def sample_runtime : Runtime :=
  { get_platforms := .ok [sample_host_platform, sample_opencl_cpu_platform,
      sample_opencl_gpu_platform, sample_level0_platform],
    select_device := .ok sample_cpu,
    get_platform := sample_get_platform,
    constructed := 0 }

/-- A machine without OpenCL or Level-Zero drivers: the only platform is the
host platform and the default selector picks the host device. -/
def host_only_runtime : Runtime :=
  { get_platforms := .ok [sample_host_platform],
    select_device := .ok sample_host_device,
    get_platform := sample_get_platform,
    constructed := 0 }

/-- A machine with an OpenCL CPU driver and a CUDA GPU, whose default device is
the CUDA GPU. -/
def cuda_default_runtime : Runtime :=
  { get_platforms := .ok [sample_host_platform, sample_opencl_cpu_platform, sample_cuda_platform],
    select_device := .ok sample_cuda_gpu,
    get_platform := sample_get_platform,
    constructed := 0 }

/-- The queue cached for the sample OpenCL CPU. -/
def sample_cpu_queue : queue :=
  { impl := queue_impl.of_init_queues backend.opencl device_type.cpu 0,
    ctx := { devices := [sample_cpu] }, dev := sample_cpu }

/-- The queue cached for the sample OpenCL GPU platform. -/
def sample_gpu_queue : queue :=
  { impl := queue_impl.of_init_queues backend.opencl device_type.gpu 0,
    ctx := { devices := [sample_gpu_a, sample_gpu_b] }, dev := sample_gpu_a }

/-- The queue cached for the sample Level-Zero GPU. -/
def sample_l0_queue : queue :=
  { impl := queue_impl.of_init_queues backend.level_zero device_type.gpu 0,
    ctx := { devices := [sample_l0_gpu] }, dev := sample_l0_gpu }

/-- A second OpenCL CPU device, on a platform of its own. -/
def sample_cpu_b : device := { id := 6, device_type := device_type.cpu }

/-- A second OpenCL platform with one CPU device. -/
def sample_opencl_cpu_platform_b : platform :=
  { is_host := false, get_backend := backend.opencl, get_devices := .ok [sample_cpu_b] }

/-- A platform whose device enumeration raises. -/
def sample_broken_platform : platform :=
  { is_host := false, get_backend := backend.opencl, get_devices := .error Err.runtime_error }

/-- A machine with two OpenCL CPU drivers, one single-device platform each. -/
def two_cpu_runtime : Runtime :=
  { get_platforms := .ok [sample_host_platform, sample_opencl_cpu_platform,
      sample_opencl_cpu_platform_b],
    select_device := .ok sample_cpu,
    get_platform := sample_get_platform,
    constructed := 0 }

/-- A machine on which `platform::get_platforms()` raises. -/
def no_platforms_runtime : Runtime :=
  { get_platforms := .error Err.runtime_error,
    select_device := .ok sample_cpu,
    get_platform := sample_get_platform,
    constructed := 0 }

/-- A machine with a platform whose `get_devices()` raises, listed before the
OpenCL CPU platform of the default device. -/
def broken_devices_runtime : Runtime :=
  { get_platforms := .ok [sample_host_platform, sample_broken_platform,
      sample_opencl_cpu_platform],
    select_device := .ok sample_cpu,
    get_platform := sample_get_platform,
    constructed := 0 }

/-- The machine with two OpenCL CPU drivers when the default selector picks the
CPU of the second platform. -/
def second_cpu_default_runtime : Runtime :=
  { get_platforms := .ok [sample_host_platform, sample_opencl_cpu_platform,
      sample_opencl_cpu_platform_b],
    select_device := .ok sample_cpu_b,
    get_platform := fun d =>
      if d.id = 6 then sample_opencl_cpu_platform_b else sample_get_platform d,
    constructed := 0 }

/-- The queue the second OpenCL CPU platform would be cached as. -/
def sample_cpu_b_queue : queue :=
  { impl := queue_impl.of_init_queues backend.opencl device_type.cpu 1,
    ctx := { devices := [sample_cpu_b] }, dev := sample_cpu_b }

/-! ## The catalog in the words of the specification -/

/-- The catalog entry of one platform as the specification words it: nothing for
a host platform or a platform without a device matching (backend, class);
otherwise one queue on the first matching device, with a context over all the
matching devices of the platform.  The queue is a new queue object, with the
serial number given. -/
def spec_catalog_entry (BE : backend) (DTy : device_type) (serial : Nat) (p : platform) :
    Option queue :=
  if p.is_host then none
  else
    match p.get_devices with
    | .error _ => none
    | .ok Devices =>
      match Devices.filter (fun d => d.device_type = DTy ∧ p.get_backend = BE) with
      | [] => none
      | d :: rest =>
        some (queue.mk (queue_impl.of_init_queues BE DTy serial) (context.mk (d :: rest)) d)

/-- The catalog as the specification words it, built when `serial` queue objects
exist: in platform order, exactly one entry for each non-host platform that has
at least one matching device. -/
def spec_catalog_from (BE : backend) (DTy : device_type) : Nat → List platform → QVec
  | _, [] => []
  | serial, p :: rest =>
    match spec_catalog_entry BE DTy serial p with
    | some q => q :: spec_catalog_from BE DTy (serial + 1) rest
    | none => spec_catalog_from BE DTy serial rest

/-- The catalog as the specification words it, built first of all queue objects:
in platform order, exactly one entry for each non-host platform that has at
least one matching device. -/
def spec_catalog (BE : backend) (DTy : device_type) (Platforms : List platform) : QVec :=
  spec_catalog_from BE DTy 0 Platforms

/-- A queue of the catalog is bound to a platform: the platform is not the host,
has the requested backend, lists the device of the queue, that device has the
requested class and is a member of the context of the queue, and every device of
that context is a device of the platform with the requested class. -/
def bound_to (BE : backend) (DTy : device_type) (q : queue) (p : platform) : Prop :=
  p.is_host = false ∧ p.get_backend = BE ∧
    ∃ Devices, p.get_devices = .ok Devices ∧ q.dev ∈ Devices ∧ q.dev.device_type = DTy ∧
      q.dev ∈ q.ctx.devices ∧ ∀ x ∈ q.ctx.devices, x ∈ Devices ∧ x.device_type = DTy

/-! ## The function-local statics as state -/

/-- The runtime after `n` more queue objects have been constructed. -/
def Runtime.after_constructing (R : Runtime) (n : Nat) : Runtime :=
  { R with constructed := R.constructed + n }

/-- The state of the process that the queue manager reads and writes: the
runtime, in which `constructed` grows with every queue object constructed; the
function-local statics `static QVec *queues` of the three getters, `none` until
their initialiser has returned; and the vector of active queues of the calling
thread. -/
structure Process where
  runtime : Runtime
  opencl_cpu_queues : Option QVec
  opencl_gpu_queues : Option QVec
  level0_gpu_queues : Option QVec
  active_queues : QVec

/-- The function `QMgrHelper::get_opencl_cpu_queues` with its static written out
as state: the initialiser `init_queues(backend::opencl, info::device_type::cpu)`
runs on the first call that reaches it and its vector is kept, a later call
returns the kept vector; an initialiser that raises leaves the static unset. -/
def Process.get_opencl_cpu_queues (P : Process) : Except Err (QVec × Process) :=
  match P.opencl_cpu_queues with
  | some queues => .ok (queues, P)
  | none =>
    match QMgrHelper.init_queues P.runtime backend.opencl device_type.cpu with
    | .error e => .error e
    | .ok queues =>
      .ok (queues, { P with
        runtime := P.runtime.after_constructing queues.length,
        opencl_cpu_queues := some queues })

/-- The function `QMgrHelper::get_opencl_gpu_queues` with its static written out
as state. -/
def Process.get_opencl_gpu_queues (P : Process) : Except Err (QVec × Process) :=
  match P.opencl_gpu_queues with
  | some queues => .ok (queues, P)
  | none =>
    match QMgrHelper.init_queues P.runtime backend.opencl device_type.gpu with
    | .error e => .error e
    | .ok queues =>
      .ok (queues, { P with
        runtime := P.runtime.after_constructing queues.length,
        opencl_gpu_queues := some queues })

/-- The function `QMgrHelper::get_level0_gpu_queues` with its static written out
as state. -/
def Process.get_level0_gpu_queues (P : Process) : Except Err (QVec × Process) :=
  match P.level0_gpu_queues with
  | some queues => .ok (queues, P)
  | none =>
    match QMgrHelper.init_queues P.runtime backend.level_zero device_type.gpu with
    | .error e => .error e
    | .ok queues =>
      .ok (queues, { P with
        runtime := P.runtime.after_constructing queues.length,
        level0_gpu_queues := some queues })

/-- The function `QMgrHelper::getQueue` over the process state: the handle
given back and the state after the call. -/
def Process.getQueue (BETy : DPCTLSyclBackendType) (DeviceTy : DPCTLSyclDeviceType)
    (DNum : Nat) (P : Process) : Except Err (Option queue × Process) :=
  if switch_key BETy DeviceTy = case_opencl_cpu then
    P.get_opencl_cpu_queues.bind fun r =>
      if DNum ≥ r.1.length then .ok (none, r.2)
      else (QVec.subscript r.1 DNum).bind fun q => .ok (some q, r.2)
  else if switch_key BETy DeviceTy = case_opencl_gpu then
    P.get_opencl_gpu_queues.bind fun r =>
      if DNum ≥ r.1.length then .ok (none, r.2)
      else (QVec.subscript r.1 DNum).bind fun q => .ok (some q, r.2)
  else if switch_key BETy DeviceTy = case_level0_gpu then
    P.get_level0_gpu_queues.bind fun r =>
      if DNum ≥ r.1.length then .ok (none, r.2)
      else (QVec.subscript r.1 DNum).bind fun q => .ok (some q, r.2)
  else .ok (none, P)

/-- The function `DPCTLQueueMgr_GetNumQueues` over the process state. -/
def Process.DPCTLQueueMgr_GetNumQueues (BETy : DPCTLSyclBackendType)
    (DeviceTy : DPCTLSyclDeviceType) (P : Process) : Except Err (Nat × Process) :=
  if switch_key BETy DeviceTy = case_opencl_cpu then
    P.get_opencl_cpu_queues.bind fun r => .ok (r.1.length, r.2)
  else if switch_key BETy DeviceTy = case_opencl_gpu then
    P.get_opencl_gpu_queues.bind fun r => .ok (r.1.length, r.2)
  else if switch_key BETy DeviceTy = case_level0_gpu then
    P.get_level0_gpu_queues.bind fun r => .ok (r.1.length, r.2)
  else .ok (0, P)

/-- The function `QMgrHelper::getCurrentQueue` over the process state. -/
def Process.getCurrentQueue (P : Process) : Except Err (Option queue × Process) :=
  (QMgrHelper.getCurrentQueue P.active_queues).bind fun r => .ok (r, P)

/-- The static a supported pair is served from. -/
def Process.static (P : Process) : SupportedPair → Option QVec
  | .opencl_cpu => P.opencl_cpu_queues
  | .opencl_gpu => P.opencl_gpu_queues
  | .level0_gpu => P.level0_gpu_queues

/-- The getter a supported pair is served by. -/
def Process.get_queues (P : Process) : SupportedPair → Except Err (QVec × Process)
  | .opencl_cpu => P.get_opencl_cpu_queues
  | .opencl_gpu => P.get_opencl_gpu_queues
  | .level0_gpu => P.get_level0_gpu_queues

/-- A process in which no static is initialised yet. -/
def Process.fresh (R : Runtime) (active_queues : QVec) : Process :=
  { runtime := R, opencl_cpu_queues := none, opencl_gpu_queues := none,
    level0_gpu_queues := none, active_queues := active_queues }

/-- The process of the sample machine before any static is initialised, with two
active queues. -/
def sample_process : Process :=
  Process.fresh sample_runtime [sample_cpu_queue, sample_l0_queue]

/-- The sample process after its first call that reads the OpenCL GPU list: the
list is kept in its static and one queue object has been constructed. -/
def sample_process_after : Process :=
  { runtime := sample_runtime.after_constructing 1,
    opencl_cpu_queues := none,
    opencl_gpu_queues := some [sample_gpu_queue],
    level0_gpu_queues := none,
    active_queues := [sample_cpu_queue, sample_l0_queue] }

/-! ## Dispatch -/

theorem key_opencl_cpu : switch_key DPCTL_OPENCL DPCTL_CPU = case_opencl_cpu := rfl

theorem key_opencl_gpu : switch_key DPCTL_OPENCL DPCTL_GPU = case_opencl_gpu := rfl

theorem key_level0_gpu : switch_key DPCTL_LEVEL_ZERO DPCTL_GPU = case_level0_gpu := rfl

theorem case_gpu_ne_cpu : case_opencl_gpu ≠ case_opencl_cpu := by decide

theorem case_level0_ne_cpu : case_level0_gpu ≠ case_opencl_cpu := by decide

theorem case_level0_ne_gpu : case_level0_gpu ≠ case_opencl_gpu := by decide

theorem supported_pair_supported (k : SupportedPair) : supported k.BETy k.DeviceTy = true := by
  cases k <;> decide

theorem supported_iff (BETy : DPCTLSyclBackendType) (DeviceTy : DPCTLSyclDeviceType) :
    supported BETy DeviceTy = true ↔
      ∃ k : SupportedPair, switch_key BETy DeviceTy = switch_key k.BETy k.DeviceTy := by
  constructor
  · intro h
    simp only [supported, Bool.or_eq_true, decide_eq_true_eq] at h
    rcases h with (h | h) | h
    · exact ⟨.opencl_cpu, h⟩
    · exact ⟨.opencl_gpu, h⟩
    · exact ⟨.level0_gpu, h⟩
  · rintro ⟨k, hk⟩
    have h := supported_pair_supported k
    simp only [supported] at h ⊢
    rw [hk]
    exact h

theorem supported_false_iff (BETy : DPCTLSyclBackendType) (DeviceTy : DPCTLSyclDeviceType) :
    supported BETy DeviceTy = false ↔
      switch_key BETy DeviceTy ≠ case_opencl_cpu ∧ switch_key BETy DeviceTy ≠ case_opencl_gpu ∧
        switch_key BETy DeviceTy ≠ case_level0_gpu := by
  simp [supported, and_assoc]

/-! ## Vector reads and writes -/

theorem subscript_of_lt (v : QVec) (i : Nat) (h : i < v.length) :
    QVec.subscript v i = .ok (v.get ⟨i, h⟩) := by
  simp [QVec.subscript, List.getElem?_eq_getElem h]

theorem subscript_last (v : QVec) (q : queue) :
    QVec.subscript (v ++ [q]) ((v ++ [q]).length - 1) = .ok q := by
  simp [QVec.subscript]

theorem subscript_concat (v : QVec) (q : queue) :
    QVec.subscript (v ++ [q]) v.length = .ok q := by
  simp [QVec.subscript]

theorem subscript_guarded (qs : QVec) (DNum : Nat) :
    (if DNum ≥ qs.length then (Except.ok none : Except Err (Option queue))
      else (QVec.subscript qs DNum).bind fun q => .ok (some q)) = .ok qs[DNum]? := by
  by_cases h : DNum < qs.length
  · simp [QVec.subscript, List.getElem?_eq_getElem h, Except.bind, Nat.not_le.mpr h]
  · have h1 : qs.length ≤ DNum := Nat.le_of_not_lt h
    simp [h1, List.getElem?_eq_none h1]

/-! ## What each operation computes -/

theorem getQueue_of_key (R : Runtime) (BETy : DPCTLSyclBackendType)
    (DeviceTy : DPCTLSyclDeviceType) (k : SupportedPair)
    (hk : switch_key BETy DeviceTy = switch_key k.BETy k.DeviceTy) (DNum : Nat) :
    QMgrHelper.getQueue R BETy DeviceTy DNum =
      (k.queues R).bind fun qs => .ok qs[DNum]? := by
  simp only [QMgrHelper.getQueue, hk]
  cases k <;>
    simp only [SupportedPair.BETy, SupportedPair.DeviceTy, SupportedPair.queues, key_opencl_cpu,
      key_opencl_gpu, key_level0_gpu, case_gpu_ne_cpu, case_level0_ne_cpu, case_level0_ne_gpu,
      if_true, if_false, subscript_guarded]

theorem getQueue_supported (R : Runtime) (k : SupportedPair) (DNum : Nat) :
    QMgrHelper.getQueue R k.BETy k.DeviceTy DNum =
      (k.queues R).bind fun qs => .ok qs[DNum]? :=
  getQueue_of_key R k.BETy k.DeviceTy k rfl DNum

theorem getQueue_unsupported (R : Runtime) (BETy : DPCTLSyclBackendType)
    (DeviceTy : DPCTLSyclDeviceType) (DNum : Nat) (h : supported BETy DeviceTy = false) :
    QMgrHelper.getQueue R BETy DeviceTy DNum = .ok none := by
  obtain ⟨h1, h2, h3⟩ := (supported_false_iff BETy DeviceTy).mp h
  simp [QMgrHelper.getQueue, h1, h2, h3]

theorem push_guarded (qs activeQ : QVec) (DNum : Nat) :
    (if DNum ≥ qs.length then (Except.ok (none, activeQ) : Except Err (Option queue × QVec))
      else (QVec.subscript qs DNum).bind fun q =>
        let activeQ1 := activeQ ++ [q]
        (QVec.subscript activeQ1 (activeQ1.length - 1)).bind fun r => .ok (some r, activeQ1)) =
      .ok (match qs[DNum]? with
        | none => (none, activeQ)
        | some q => (some q, activeQ ++ [q])) := by
  by_cases h : DNum < qs.length
  · simp only [ge_iff_le, Nat.not_le.mpr h, if_false, subscript_of_lt qs DNum h, Except.bind,
      subscript_last, List.getElem?_eq_getElem h]
    rfl
  · have h1 : qs.length ≤ DNum := Nat.le_of_not_lt h
    simp [h1, List.getElem?_eq_none h1]

theorem set_default_guarded (qs : QVec) (d : queue) (rest : QVec) (DNum : Nat) :
    (if DNum ≥ qs.length then
        (Except.ok (none, d :: rest) : Except Err (Option queue × QVec))
      else (QVec.subscript qs DNum).bind fun q =>
        (QVec.assign0 (d :: rest) q).bind fun activeQ1 =>
          (QVec.subscript activeQ1 0).bind fun r => .ok (some r, activeQ1)) =
      .ok (match qs[DNum]? with
        | none => (none, d :: rest)
        | some q => (some q, q :: rest)) := by
  by_cases h : DNum < qs.length
  · simp only [ge_iff_le, Nat.not_le.mpr h, if_false, subscript_of_lt qs DNum h, Except.bind,
      QVec.assign0, List.getElem?_eq_getElem h]
    simp [QVec.subscript]
  · have h1 : qs.length ≤ DNum := Nat.le_of_not_lt h
    simp [h1, List.getElem?_eq_none h1]

theorem pushSyclQueue_of_key (R : Runtime) (BETy : DPCTLSyclBackendType)
    (DeviceTy : DPCTLSyclDeviceType) (k : SupportedPair)
    (hk : switch_key BETy DeviceTy = switch_key k.BETy k.DeviceTy) (DNum : Nat) (activeQ : QVec)
    (h : activeQ ≠ []) :
    QMgrHelper.pushSyclQueue R BETy DeviceTy DNum activeQ =
      (k.queues R).bind fun qs => .ok (match qs[DNum]? with
        | none => (none, activeQ)
        | some q => (some q, activeQ ++ [q])) := by
  have he : activeQ.isEmpty = false := by cases activeQ <;> simp_all
  simp only [QMgrHelper.pushSyclQueue, he, hk]
  cases k <;>
    simp only [SupportedPair.BETy, SupportedPair.DeviceTy, SupportedPair.queues, key_opencl_cpu,
      key_opencl_gpu, key_level0_gpu, case_gpu_ne_cpu, case_level0_ne_cpu, case_level0_ne_gpu,
      if_true, if_false, push_guarded, Bool.false_eq_true]

theorem pushSyclQueue_supported (R : Runtime) (k : SupportedPair) (DNum : Nat) (activeQ : QVec)
    (h : activeQ ≠ []) :
    QMgrHelper.pushSyclQueue R k.BETy k.DeviceTy DNum activeQ =
      (k.queues R).bind fun qs => .ok (match qs[DNum]? with
        | none => (none, activeQ)
        | some q => (some q, activeQ ++ [q])) :=
  pushSyclQueue_of_key R k.BETy k.DeviceTy k rfl DNum activeQ h

theorem setAsDefaultQueue_of_key (R : Runtime) (BETy : DPCTLSyclBackendType)
    (DeviceTy : DPCTLSyclDeviceType) (k : SupportedPair)
    (hk : switch_key BETy DeviceTy = switch_key k.BETy k.DeviceTy) (DNum : Nat)
    (d : queue) (rest : QVec) :
    QMgrHelper.setAsDefaultQueue R BETy DeviceTy DNum (d :: rest) =
      (k.queues R).bind fun qs => .ok (match qs[DNum]? with
        | none => (none, d :: rest)
        | some q => (some q, q :: rest)) := by
  simp only [QMgrHelper.setAsDefaultQueue, List.isEmpty_cons, hk]
  cases k <;>
    simp only [SupportedPair.BETy, SupportedPair.DeviceTy, SupportedPair.queues, key_opencl_cpu,
      key_opencl_gpu, key_level0_gpu, case_gpu_ne_cpu, case_level0_ne_cpu, case_level0_ne_gpu,
      if_true, if_false, set_default_guarded, Bool.false_eq_true]

theorem setAsDefaultQueue_supported (R : Runtime) (k : SupportedPair) (DNum : Nat)
    (d : queue) (rest : QVec) :
    QMgrHelper.setAsDefaultQueue R k.BETy k.DeviceTy DNum (d :: rest) =
      (k.queues R).bind fun qs => .ok (match qs[DNum]? with
        | none => (none, d :: rest)
        | some q => (some q, q :: rest)) :=
  setAsDefaultQueue_of_key R k.BETy k.DeviceTy k rfl DNum d rest

theorem pushSyclQueue_unsupported (R : Runtime) (BETy : DPCTLSyclBackendType)
    (DeviceTy : DPCTLSyclDeviceType) (DNum : Nat) (activeQ : QVec)
    (h : supported BETy DeviceTy = false) :
    QMgrHelper.pushSyclQueue R BETy DeviceTy DNum activeQ = .ok (none, activeQ) := by
  obtain ⟨h1, h2, h3⟩ := (supported_false_iff BETy DeviceTy).mp h
  simp [QMgrHelper.pushSyclQueue, h1, h2, h3]

theorem setAsDefaultQueue_unsupported (R : Runtime) (BETy : DPCTLSyclBackendType)
    (DeviceTy : DPCTLSyclDeviceType) (DNum : Nat) (activeQ : QVec)
    (h : supported BETy DeviceTy = false) :
    QMgrHelper.setAsDefaultQueue R BETy DeviceTy DNum activeQ = .ok (none, activeQ) := by
  obtain ⟨h1, h2, h3⟩ := (supported_false_iff BETy DeviceTy).mp h
  simp [QMgrHelper.setAsDefaultQueue, h1, h2, h3]

theorem pushSyclQueue_nil (R : Runtime) (BETy : DPCTLSyclBackendType)
    (DeviceTy : DPCTLSyclDeviceType) (DNum : Nat) :
    QMgrHelper.pushSyclQueue R BETy DeviceTy DNum [] = .ok (none, []) := by
  simp [QMgrHelper.pushSyclQueue]

theorem setAsDefaultQueue_nil (R : Runtime) (BETy : DPCTLSyclBackendType)
    (DeviceTy : DPCTLSyclDeviceType) (DNum : Nat) :
    QMgrHelper.setAsDefaultQueue R BETy DeviceTy DNum [] = .ok (none, []) := by
  simp [QMgrHelper.setAsDefaultQueue]

theorem GetNumQueues_of_key (R : Runtime) (BETy : DPCTLSyclBackendType)
    (DeviceTy : DPCTLSyclDeviceType) (k : SupportedPair)
    (hk : switch_key BETy DeviceTy = switch_key k.BETy k.DeviceTy) :
    DPCTLQueueMgr_GetNumQueues R BETy DeviceTy = (k.queues R).bind fun qs => .ok qs.length := by
  simp only [DPCTLQueueMgr_GetNumQueues, hk]
  cases k <;>
    simp only [SupportedPair.BETy, SupportedPair.DeviceTy, SupportedPair.queues, key_opencl_cpu,
      key_opencl_gpu, key_level0_gpu, case_gpu_ne_cpu, case_level0_ne_cpu, case_level0_ne_gpu,
      if_true, if_false]

theorem GetNumQueues_supported (R : Runtime) (k : SupportedPair) :
    DPCTLQueueMgr_GetNumQueues R k.BETy k.DeviceTy = (k.queues R).bind fun qs => .ok qs.length :=
  GetNumQueues_of_key R k.BETy k.DeviceTy k rfl

theorem GetNumQueues_unsupported (R : Runtime) (BETy : DPCTLSyclBackendType)
    (DeviceTy : DPCTLSyclDeviceType) (h : supported BETy DeviceTy = false) :
    DPCTLQueueMgr_GetNumQueues R BETy DeviceTy = .ok 0 := by
  obtain ⟨h1, h2, h3⟩ := (supported_false_iff BETy DeviceTy).mp h
  simp [DPCTLQueueMgr_GetNumQueues, h1, h2, h3]

theorem getCurrentQueue_eq (s : QVec) : QMgrHelper.getCurrentQueue s = .ok s.getLast? := by
  rcases List.eq_nil_or_concat s with rfl | ⟨l, q, rfl⟩
  · rfl
  · simp [QMgrHelper.getCurrentQueue, subscript_concat, Except.bind]

theorem queue_equals_self (q : queue) : q.equals q = true := by
  simp [queue.equals]

theorem isCurrentQueue_eq (s : QVec) (QRef : queue) :
    QMgrHelper.isCurrentQueue s QRef =
      .ok (match s.getLast? with
        | some top => QRef.equals top
        | none => false) := by
  rcases List.eq_nil_or_concat s with rfl | ⟨l, q, rfl⟩
  · rfl
  · simp [QMgrHelper.isCurrentQueue, subscript_concat, Except.bind]

theorem valid_selector_iff (R : Runtime) (BETy : DPCTLSyclBackendType)
    (DeviceTy : DPCTLSyclDeviceType) (DNum : Nat) :
    valid_selector R BETy DeviceTy DNum = true ↔
      ∃ (k : SupportedPair) (qs : QVec),
        switch_key BETy DeviceTy = switch_key k.BETy k.DeviceTy ∧
        k.queues R = .ok qs ∧ DNum < qs.length := by
  constructor
  · intro h
    simp only [valid_selector, Bool.and_eq_true] at h
    obtain ⟨k, hk⟩ := (supported_iff BETy DeviceTy).mp h.1
    have h2 := h.2
    rw [GetNumQueues_of_key R BETy DeviceTy k hk] at h2
    cases hq : k.queues R with
    | error e => simp [hq, Except.bind] at h2
    | ok qs =>
      refine ⟨k, qs, hk, hq, ?_⟩
      simpa [hq, Except.bind] using h2
  · rintro ⟨k, qs, hk, hq, hi⟩
    have hsup : supported BETy DeviceTy = true := (supported_iff BETy DeviceTy).mpr ⟨k, hk⟩
    simp [valid_selector, hsup, GetNumQueues_of_key R BETy DeviceTy k hk, hq, Except.bind, hi]

theorem pushSyclQueue_result (R : Runtime) (BETy : DPCTLSyclBackendType)
    (DeviceTy : DPCTLSyclDeviceType) (DNum : Nat) (s s1 : QVec) (r : Option queue)
    (h : QMgrHelper.pushSyclQueue R BETy DeviceTy DNum s = .ok (r, s1)) :
    (r = none ∧ s1 = s) ∨ (∃ q, r = some q ∧ s1 = s ++ [q] ∧ s ≠ []) := by
  by_cases hs : s = []
  · subst hs
    rw [pushSyclQueue_nil] at h
    cases h
    exact Or.inl ⟨rfl, rfl⟩
  · cases hsup : supported BETy DeviceTy with
    | false =>
      rw [pushSyclQueue_unsupported R BETy DeviceTy DNum s hsup] at h
      cases h
      exact Or.inl ⟨rfl, rfl⟩
    | true =>
      obtain ⟨k, hk⟩ := (supported_iff BETy DeviceTy).mp hsup
      rw [pushSyclQueue_of_key R BETy DeviceTy k hk DNum s hs] at h
      cases hq : k.queues R with
      | error e => simp [hq, Except.bind] at h
      | ok qs =>
        simp only [hq, Except.bind, Except.ok.injEq] at h
        cases hg : qs[DNum]? with
        | none =>
          simp only [hg, Prod.mk.injEq] at h
          exact Or.inl ⟨h.1.symm, h.2.symm⟩
        | some q =>
          simp only [hg, Prod.mk.injEq] at h
          exact Or.inr ⟨q, h.1.symm, h.2.symm, hs⟩

theorem setAsDefaultQueue_result (R : Runtime) (BETy : DPCTLSyclBackendType)
    (DeviceTy : DPCTLSyclDeviceType) (DNum : Nat) (s s1 : QVec) (r : Option queue)
    (h : QMgrHelper.setAsDefaultQueue R BETy DeviceTy DNum s = .ok (r, s1)) :
    (r = none ∧ s1 = s) ∨ (∃ q d rest, r = some q ∧ s = d :: rest ∧ s1 = q :: rest) := by
  cases s with
  | nil =>
    rw [setAsDefaultQueue_nil] at h
    cases h
    exact Or.inl ⟨rfl, rfl⟩
  | cons d rest =>
    cases hsup : supported BETy DeviceTy with
    | false =>
      rw [setAsDefaultQueue_unsupported R BETy DeviceTy DNum (d :: rest) hsup] at h
      cases h
      exact Or.inl ⟨rfl, rfl⟩
    | true =>
      obtain ⟨k, hk⟩ := (supported_iff BETy DeviceTy).mp hsup
      rw [setAsDefaultQueue_of_key R BETy DeviceTy k hk DNum d rest] at h
      cases hq : k.queues R with
      | error e => simp [hq, Except.bind] at h
      | ok qs =>
        simp only [hq, Except.bind, Except.ok.injEq] at h
        cases hg : qs[DNum]? with
        | none =>
          simp only [hg, Prod.mk.injEq] at h
          exact Or.inl ⟨h.1.symm, h.2.symm⟩
        | some q =>
          simp only [hg, Prod.mk.injEq] at h
          exact Or.inr ⟨q, d, rest, h.1.symm, rfl, h.2.symm⟩

theorem popSyclQueue_ne_nil (s : QVec) (h : s ≠ []) : QMgrHelper.popSyclQueue s ≠ [] := by
  unfold QMgrHelper.popSyclQueue
  split
  · exact h
  · rename_i h1
    intro h2
    have h3 := congrArg List.length h2
    simp only [List.length_dropLast, List.length_nil] at h3
    omega

theorem step_ne_nil (R : Runtime) (op : Op) (s s1 : QVec) (h : op.step R s = .ok s1)
    (hs : s ≠ []) : s1 ≠ [] := by
  cases op with
  | get_current =>
    simp only [Op.step] at h
    cases hc : DPCTLQueueMgr_GetCurrentQueue s with
    | error e => simp [hc, Except.bind] at h
    | ok r =>
      simp only [hc, Except.bind, Except.ok.injEq] at h
      exact h ▸ hs
  | get_queue BETy DeviceTy DNum =>
    simp only [Op.step] at h
    cases hc : DPCTLQueueMgr_GetQueue R BETy DeviceTy DNum with
    | error e => simp [hc, Except.bind] at h
    | ok r =>
      simp only [hc, Except.bind, Except.ok.injEq] at h
      exact h ▸ hs
  | is_current QRef =>
    simp only [Op.step] at h
    cases hc : DPCTLQueueMgr_IsCurrentQueue s QRef with
    | error e => simp [hc, Except.bind] at h
    | ok r =>
      simp only [hc, Except.bind, Except.ok.injEq] at h
      exact h ▸ hs
  | set_default_queue BETy DeviceTy DNum =>
    simp only [Op.step, DPCTLQueueMgr_SetAsDefaultQueue] at h
    cases hc : QMgrHelper.setAsDefaultQueue R BETy DeviceTy DNum s with
    | error e => simp [hc, Except.bind] at h
    | ok r =>
      simp only [hc, Except.bind, Except.ok.injEq] at h
      rcases setAsDefaultQueue_result R BETy DeviceTy DNum s r.2 r.1 hc with
        ⟨_, h2⟩ | ⟨q, d, rest, _, _, h2⟩
      · rw [← h, h2]; exact hs
      · rw [← h, h2]; exact List.cons_ne_nil q rest
  | push_queue BETy DeviceTy DNum =>
    simp only [Op.step, DPCTLQueueMgr_PushQueue] at h
    cases hc : QMgrHelper.pushSyclQueue R BETy DeviceTy DNum s with
    | error e => simp [hc, Except.bind] at h
    | ok r =>
      simp only [hc, Except.bind, Except.ok.injEq] at h
      rcases pushSyclQueue_result R BETy DeviceTy DNum s r.2 r.1 hc with
        ⟨_, h2⟩ | ⟨q, _, h2, _⟩
      · rw [← h, h2]; exact hs
      · rw [← h, h2]; simp
  | pop_queue =>
    simp only [Op.step, Except.ok.injEq, DPCTLQueueMgr_PopQueue] at h
    exact h ▸ popSyclQueue_ne_nil s hs

theorem run_ne_nil (R : Runtime) (ops : List Op) (s s1 : QVec) (h : run R ops s = .ok s1)
    (hs : s ≠ []) : s1 ≠ [] := by
  induction ops generalizing s with
  | nil =>
    simp only [run, Except.ok.injEq] at h
    exact h ▸ hs
  | cons op ops ih =>
    simp only [run] at h
    cases hc : op.step R s with
    | error e => simp [hc, Except.bind] at h
    | ok s2 =>
      simp only [hc, Except.bind] at h
      exact ih s2 h (step_ne_nil R op s s2 hc hs)

/-! ## The sample machines -/

theorem sample_opencl_cpu_queues :
    SupportedPair.opencl_cpu.queues sample_runtime = .ok [sample_cpu_queue] := by decide

theorem sample_opencl_gpu_queues :
    SupportedPair.opencl_gpu.queues sample_runtime = .ok [sample_gpu_queue] := by decide

theorem sample_level0_gpu_queues :
    SupportedPair.level0_gpu.queues sample_runtime = .ok [sample_l0_queue] := by decide

theorem sample_init_active_queues :
    QMgrHelper.init_active_queues sample_runtime = .ok [sample_cpu_queue] := by decide

theorem host_only_init_active_queues :
    QMgrHelper.init_active_queues host_only_runtime = .ok [] := by decide

/-! ## Claims -/

/-- C1, as amended: for every thread whose first access (`init_active_queues`)
seeded a non-empty activation stack, the stack has length at least 1 in every
state reached by any sequence of the public operations (`get_current`,
`get_queue`, `is_current`, `set_default_queue`, `push_queue`, `pop_queue`),
including after any sequence of pops, and slot 0 holds a queue. -/
theorem C1_seeded_stack_stays_nonempty (R : Runtime) (ops : List Op) (s0 s : QVec)
    (_hinit : QMgrHelper.init_active_queues R = .ok s0) (hseed : s0 ≠ [])
    (hrun : run R ops s0 = .ok s) :
    1 ≤ s.length ∧ s[0]?.isSome = true := by
  have h := run_ne_nil R ops s0 s hrun hseed
  cases s with
  | nil => exact absurd rfl h
  | cons q rest => simp

/-- C1 witness: on the sample machine the seeded stack is the OpenCL CPU queue
and a run with more pops than pushes ends in a stack of length at least 1. -/
theorem C1_seeded_stack_stays_nonempty_witness :
    1 ≤ [sample_gpu_queue].length ∧ ([sample_gpu_queue] : QVec)[0]?.isSome = true :=
  C1_seeded_stack_stays_nonempty sample_runtime
    [Op.push_queue DPCTL_OPENCL DPCTL_GPU 0, Op.pop_queue, Op.pop_queue, Op.get_current,
      Op.set_default_queue DPCTL_OPENCL DPCTL_GPU 0, Op.pop_queue]
    [sample_cpu_queue] [sample_gpu_queue] (by decide) (by decide) (by decide)

/-- C1 counterexample: on a machine whose default device is a CUDA GPU the first
access seeds the empty stack, and the stack is still empty (length 0, no slot 0)
after `get_current`, `push_queue` with the valid selector (OpenCL, CPU, 0) and
`pop_queue`. -/
theorem C1_counterexample :
    QMgrHelper.init_active_queues cuda_default_runtime = .ok [] ∧
      valid_selector cuda_default_runtime DPCTL_OPENCL DPCTL_CPU 0 = true ∧
      run cuda_default_runtime
        [Op.get_current, Op.push_queue DPCTL_OPENCL DPCTL_CPU 0, Op.pop_queue] [] = .ok [] ∧
      ¬ (1 ≤ ([] : QVec).length) ∧ ([] : QVec)[0]?.isSome = false := by
  decide

theorem pop_times_of_length_le_one (N : Nat) (s : QVec) (h : s.length ≤ 1) :
    pop_times N s = s := by
  induction N with
  | zero => rfl
  | succ n ih =>
    have h1 : DPCTLQueueMgr_PopQueue s = s := by
      simp [DPCTLQueueMgr_PopQueue, QMgrHelper.popSyclQueue, h]
    simp only [pop_times, h1, ih]

/-- C2: `pop_queue` on any activation stack `s`: when `length s ≤ 1` the stack is
returned unchanged; otherwise the result is `s` without its last slot, one slot
shorter, with slots `0 .. n-2` unchanged.  Hence popping `N` times a stack of
length 1 leaves it as it was, for every `N`, and popping a non-empty stack never
gives the empty stack. -/
theorem C2_pop_queue (s : QVec) :
    (s.length ≤ 1 → DPCTLQueueMgr_PopQueue s = s) ∧
    (1 < s.length →
      (DPCTLQueueMgr_PopQueue s).length = s.length - 1 ∧
      (∀ i, i < s.length - 1 → (DPCTLQueueMgr_PopQueue s)[i]? = s[i]?) ∧
      ∃ top, s.getLast? = some top ∧ DPCTLQueueMgr_PopQueue s ++ [top] = s) ∧
    (s.length = 1 → ∀ N, pop_times N s = s) ∧
    (s ≠ [] → DPCTLQueueMgr_PopQueue s ≠ []) := by
  refine ⟨?_, ?_, ?_, ?_⟩
  · intro h
    simp [DPCTLQueueMgr_PopQueue, QMgrHelper.popSyclQueue, h]
  · intro h
    have h1 : ¬ s.length ≤ 1 := Nat.not_le.mpr h
    rcases List.eq_nil_or_concat s with rfl | ⟨l, q, rfl⟩
    · simp at h
    · simp only [List.concat_eq_append] at h1 ⊢
      simp only [DPCTLQueueMgr_PopQueue, QMgrHelper.popSyclQueue, h1, if_false,
        List.dropLast_concat]
      refine ⟨by simp, ?_, q, by simp, rfl⟩
      intro i hi
      simp only [List.length_append, List.length_singleton, Nat.add_sub_cancel] at hi
      exact (List.getElem?_append_left hi).symm
  · intro h N
    exact pop_times_of_length_le_one N s (Nat.le_of_eq h)
  · intro h
    exact popSyclQueue_ne_nil s h

/-- C2 witness: popping a three-slot stack removes exactly the top slot, and
twelve pops of a one-slot stack leave it as it was. -/
theorem C2_pop_queue_witness :
    DPCTLQueueMgr_PopQueue [sample_cpu_queue, sample_gpu_queue, sample_l0_queue] ++
        [sample_l0_queue] = [sample_cpu_queue, sample_gpu_queue, sample_l0_queue] ∧
      pop_times 12 [sample_cpu_queue] = [sample_cpu_queue] := by
  have h3 := C2_pop_queue [sample_cpu_queue, sample_gpu_queue, sample_l0_queue]
  have h1 := C2_pop_queue [sample_cpu_queue]
  obtain ⟨top, htop, hpop⟩ := (h3.2.1 (by decide)).2.2
  have ht : top = sample_l0_queue := by
    simp only [List.getLast?, List.getLast, Option.some.injEq] at htop
    exact htop.symm
  exact ⟨ht ▸ hpop, h1.2.2.1 rfl 12⟩

/-- C3: for every non-empty activation stack and every valid (backend, class,
index), that is a supported pair with `index < get_num_queues(backend, class)`,
`push_queue` returns a queue and `pop_queue` after it gives back the whole stack
as it was before the push, so `get_current` afterwards returns what it returned
before the push. -/
theorem C3_push_then_pop (R : Runtime) (BETy : DPCTLSyclBackendType)
    (DeviceTy : DPCTLSyclDeviceType) (DNum : Nat) (s : QVec) (hs : s ≠ [])
    (hvalid : valid_selector R BETy DeviceTy DNum = true) :
    ∃ q s1 c, DPCTLQueueMgr_PushQueue R BETy DeviceTy DNum s = .ok (some q, s1) ∧
      DPCTLQueueMgr_PopQueue s1 = s ∧
      DPCTLQueueMgr_GetCurrentQueue s = .ok (some c) ∧
      DPCTLQueueMgr_GetCurrentQueue (DPCTLQueueMgr_PopQueue s1) = .ok (some c) := by
  obtain ⟨k, qs, hk, hq, hi⟩ := (valid_selector_iff R BETy DeviceTy DNum).mp hvalid
  have hpush : DPCTLQueueMgr_PushQueue R BETy DeviceTy DNum s =
      .ok (some qs[DNum], s ++ [qs[DNum]]) := by
    simp [DPCTLQueueMgr_PushQueue, pushSyclQueue_of_key R BETy DeviceTy k hk DNum s hs, hq,
      Except.bind, List.getElem?_eq_getElem hi]
  have hpop : DPCTLQueueMgr_PopQueue (s ++ [qs[DNum]]) = s := by
    have hlen : ¬ (s ++ [qs[DNum]]).length ≤ 1 := by
      have : 0 < s.length := List.length_pos.mpr hs
      simp only [List.length_append, List.length_singleton]
      omega
    simp only [DPCTLQueueMgr_PopQueue, QMgrHelper.popSyclQueue, hlen, if_false,
      List.dropLast_concat]
  obtain ⟨c, hc⟩ : ∃ c, s.getLast? = some c := by
    rcases List.eq_nil_or_concat s with rfl | ⟨l, x, rfl⟩
    · exact absurd rfl hs
    · exact ⟨x, by simp⟩
  have hcur : DPCTLQueueMgr_GetCurrentQueue s = .ok (some c) := by
    simp [DPCTLQueueMgr_GetCurrentQueue, getCurrentQueue_eq, hc]
  exact ⟨qs[DNum], s ++ [qs[DNum]], c, hpush, hpop, hcur, by rw [hpop]; exact hcur⟩

/-- C3 witness: on the sample machine, pushing the OpenCL GPU queue on a two-slot
stack and popping gives the two-slot stack back. -/
theorem C3_push_then_pop_witness :
    ∃ q s1 c, DPCTLQueueMgr_PushQueue sample_runtime DPCTL_OPENCL DPCTL_GPU 0
        [sample_cpu_queue, sample_l0_queue] = .ok (some q, s1) ∧
      DPCTLQueueMgr_PopQueue s1 = [sample_cpu_queue, sample_l0_queue] ∧
      DPCTLQueueMgr_GetCurrentQueue [sample_cpu_queue, sample_l0_queue] = .ok (some c) ∧
      DPCTLQueueMgr_GetCurrentQueue (DPCTLQueueMgr_PopQueue s1) = .ok (some c) :=
  C3_push_then_pop sample_runtime DPCTL_OPENCL DPCTL_GPU 0 [sample_cpu_queue, sample_l0_queue]
    (by decide) (by decide)

/-- C4: on a non-empty stack, `push_queue(backend, class, index)` with a supported
pair and an index in range gives the stack `old ++ [q]`, where `q` is the cached
queue at position `index` of the list of that pair: the depth grows by exactly
one, all earlier slots are unchanged, the returned queue is `q` in each of the
three dispatch branches, and right afterwards `is_current(q)` is true and
`get_current` returns `q`. -/
theorem C4_push_queue_success (R : Runtime) (k : SupportedPair) (qs : QVec) (DNum : Nat)
    (s : QVec) (hs : s ≠ []) (hq : k.queues R = .ok qs) (hi : DNum < qs.length) :
    DPCTLQueueMgr_PushQueue R k.BETy k.DeviceTy DNum s = .ok (some qs[DNum], s ++ [qs[DNum]]) ∧
      (s ++ [qs[DNum]]).length = s.length + 1 ∧
      (∀ j, j < s.length → (s ++ [qs[DNum]])[j]? = s[j]?) ∧
      DPCTLQueueMgr_IsCurrentQueue (s ++ [qs[DNum]]) qs[DNum] = .ok true ∧
      DPCTLQueueMgr_GetCurrentQueue (s ++ [qs[DNum]]) = .ok (some qs[DNum]) := by
  refine ⟨?_, by simp, ?_, ?_, ?_⟩
  · simp [DPCTLQueueMgr_PushQueue, pushSyclQueue_supported R k DNum s hs, hq, Except.bind,
      List.getElem?_eq_getElem hi]
  · intro j hj
    exact List.getElem?_append_left hj
  · simp [DPCTLQueueMgr_IsCurrentQueue, isCurrentQueue_eq, queue_equals_self]
  · simp [DPCTLQueueMgr_GetCurrentQueue, getCurrentQueue_eq]

/-- C4 witness: on the sample machine, pushing (Level-Zero, GPU, 0) on the seeded
stack appends the cached Level-Zero queue, which is then the current queue. -/
theorem C4_push_queue_success_witness :
    DPCTLQueueMgr_PushQueue sample_runtime DPCTL_LEVEL_ZERO DPCTL_GPU 0 [sample_cpu_queue] =
        .ok (some sample_l0_queue, [sample_cpu_queue] ++ [sample_l0_queue]) ∧
      ([sample_cpu_queue] ++ [sample_l0_queue]).length = [sample_cpu_queue].length + 1 ∧
      (∀ j, j < [sample_cpu_queue].length →
        ([sample_cpu_queue] ++ [sample_l0_queue])[j]? = [sample_cpu_queue][j]?) ∧
      DPCTLQueueMgr_IsCurrentQueue ([sample_cpu_queue] ++ [sample_l0_queue]) sample_l0_queue =
        .ok true ∧
      DPCTLQueueMgr_GetCurrentQueue ([sample_cpu_queue] ++ [sample_l0_queue]) =
        .ok (some sample_l0_queue) :=
  C4_push_queue_success sample_runtime SupportedPair.level0_gpu [sample_l0_queue] 0
    [sample_cpu_queue] (by decide) sample_level0_gpu_queues (by decide)

/-- C5: on a non-empty stack, `set_default_queue(backend, class, index)` with a
supported pair and an index in range overwrites only slot 0, with the cached
queue at position `index` of the list of that pair: the depth is unchanged, every
slot `j ≥ 1` is unchanged, also when activations exist above slot 0, and the
returned queue is the new slot 0. -/
theorem C5_set_default_queue_success (R : Runtime) (k : SupportedPair) (qs : QVec) (DNum : Nat)
    (s : QVec) (hs : s ≠ []) (hq : k.queues R = .ok qs) (hi : DNum < qs.length) :
    ∃ s1, DPCTLQueueMgr_SetAsDefaultQueue R k.BETy k.DeviceTy DNum s =
        .ok (some qs[DNum], s1) ∧
      s1.length = s.length ∧
      s1[0]? = some qs[DNum] ∧
      (∀ j, 1 ≤ j → s1[j]? = s[j]?) ∧
      s1 = s.set 0 qs[DNum] := by
  cases s with
  | nil => exact absurd rfl hs
  | cons d rest =>
    refine ⟨qs[DNum] :: rest, ?_, by simp, by simp, ?_, by simp⟩
    · simp [DPCTLQueueMgr_SetAsDefaultQueue, setAsDefaultQueue_supported R k DNum d rest, hq,
        Except.bind, List.getElem?_eq_getElem hi]
    · intro j hj
      obtain ⟨j1, rfl⟩ : ∃ j1, j = j1 + 1 := ⟨j - 1, by omega⟩
      simp

/-- C5 witness: on the sample machine, with two activations above slot 0,
`set_default_queue(OpenCL, GPU, 0)` replaces slot 0 only. -/
theorem C5_set_default_queue_success_witness :
    ∃ s1, DPCTLQueueMgr_SetAsDefaultQueue sample_runtime DPCTL_OPENCL DPCTL_GPU 0
        [sample_cpu_queue, sample_l0_queue, sample_cpu_queue] = .ok (some sample_gpu_queue, s1) ∧
      s1.length = [sample_cpu_queue, sample_l0_queue, sample_cpu_queue].length ∧
      s1[0]? = some sample_gpu_queue ∧
      (∀ j, 1 ≤ j → s1[j]? = [sample_cpu_queue, sample_l0_queue, sample_cpu_queue][j]?) ∧
      s1 = [sample_cpu_queue, sample_l0_queue, sample_cpu_queue].set 0 sample_gpu_queue :=
  C5_set_default_queue_success sample_runtime SupportedPair.opencl_gpu [sample_gpu_queue] 0
    [sample_cpu_queue, sample_l0_queue, sample_cpu_queue] (by decide) sample_opencl_gpu_queues
    (by decide)

theorem push_all_valid (R : Runtime)
    (args : List (DPCTLSyclBackendType × DPCTLSyclDeviceType × Nat)) (s : QVec) (hs : s ≠ [])
    (hargs : ∀ a ∈ args, valid_selector R a.1 a.2.1 a.2.2 = true) :
    ∃ t : QVec, push_all R args s = .ok (some (s ++ t)) ∧ t.length = args.length := by
  induction args generalizing s with
  | nil => exact ⟨[], by simp [push_all], rfl⟩
  | cons a rest ih =>
    obtain ⟨k, qs, hk, hq, hi⟩ :=
      (valid_selector_iff R a.1 a.2.1 a.2.2).mp (hargs a (List.mem_cons_self a rest))
    have hpush : DPCTLQueueMgr_PushQueue R a.1 a.2.1 a.2.2 s =
        .ok (some qs[a.2.2], s ++ [qs[a.2.2]]) := by
      simp [DPCTLQueueMgr_PushQueue, pushSyclQueue_of_key R a.1 a.2.1 k hk a.2.2 s hs, hq,
        Except.bind, List.getElem?_eq_getElem hi]
    obtain ⟨t, ht, hlen⟩ := ih (s ++ [qs[a.2.2]]) (by simp)
      (fun b hb1 => hargs b (List.mem_cons_of_mem a hb1))
    refine ⟨qs[a.2.2] :: t, ?_, by simp [hlen]⟩
    simp only [push_all, hpush, Except.bind, ht, List.append_assoc, List.singleton_append]

theorem pop_times_to_default (n : Nat) (q : queue) (t : QVec) (h : t.length = n) :
    pop_times n (q :: t) = [q] := by
  induction n generalizing t with
  | zero =>
    have ht : t = [] := List.length_eq_zero.mp h
    simp [ht, pop_times]
  | succ m ih =>
    rcases List.eq_nil_or_concat t with rfl | ⟨l, x, rfl⟩
    · simp at h
    · have hl : l.length = m := by simpa using h
      have hpop : DPCTLQueueMgr_PopQueue (q :: (l ++ [x])) = q :: l := by
        have hlen : ¬ (q :: (l ++ [x])).length ≤ 1 := by simp
        have hd : (q :: (l ++ [x])).dropLast = q :: l := by
          rw [← List.cons_append, List.dropLast_concat]
        simp only [DPCTLQueueMgr_PopQueue, QMgrHelper.popSyclQueue, hlen, if_false, hd]
      simp only [List.concat_eq_append, pop_times, hpop]
      exact ih l hl

/-- C6: starting from an initialised stack of depth 1, after `k` `push_queue`
calls with valid selectors (any `k ≥ 0`), each of which returns a queue, a
`set_default_queue(backend, class, i)` with a valid selector returns the cached
queue `i` of that pair and leaves `get_num_activated` equal to `k`; `k` calls of
`pop_queue` after it leave the stack with that queue alone, and `get_current`
returns it. -/
theorem C6_default_durability (R : Runtime) (d : queue)
    (args : List (DPCTLSyclBackendType × DPCTLSyclDeviceType × Nat))
    (hargs : ∀ a ∈ args, valid_selector R a.1 a.2.1 a.2.2 = true)
    (BETy : DPCTLSyclBackendType) (DeviceTy : DPCTLSyclDeviceType) (DNum : Nat)
    (hvalid : valid_selector R BETy DeviceTy DNum = true) :
    ∃ s1 q s2, push_all R args [d] = .ok (some s1) ∧
      DPCTLQueueMgr_GetNumActivatedQueues s1 = args.length ∧
      DPCTLQueueMgr_SetAsDefaultQueue R BETy DeviceTy DNum s1 = .ok (some q, s2) ∧
      DPCTLQueueMgr_GetQueue R BETy DeviceTy DNum = .ok (some q) ∧
      DPCTLQueueMgr_GetNumActivatedQueues s2 = args.length ∧
      pop_times args.length s2 = [q] ∧
      DPCTLQueueMgr_GetCurrentQueue (pop_times args.length s2) = .ok (some q) := by
  obtain ⟨t, ht, hlen⟩ := push_all_valid R args [d] (by simp) hargs
  obtain ⟨k, qs, hk, hq, hi⟩ := (valid_selector_iff R BETy DeviceTy DNum).mp hvalid
  have hpops : pop_times args.length (qs[DNum] :: t) = [qs[DNum]] :=
    pop_times_to_default args.length qs[DNum] t hlen
  refine ⟨[d] ++ t, qs[DNum], qs[DNum] :: t, ht, ?_, ?_, ?_, ?_, hpops, ?_⟩
  · simp [DPCTLQueueMgr_GetNumActivatedQueues, hlen]
  · simp [DPCTLQueueMgr_SetAsDefaultQueue,
      setAsDefaultQueue_of_key R BETy DeviceTy k hk DNum d t, hq, Except.bind,
      List.getElem?_eq_getElem hi]
  · simp [DPCTLQueueMgr_GetQueue, getQueue_of_key R BETy DeviceTy k hk, hq, Except.bind,
      List.getElem?_eq_getElem hi]
  · simp [DPCTLQueueMgr_GetNumActivatedQueues, hlen]
  · rw [hpops]
    rfl

/-- C6 witness: on the sample machine, after two pushes on the seeded stack,
`set_default_queue(Level-Zero, GPU, 0)` keeps two activations, and two pops
expose the Level-Zero queue. -/
theorem C6_default_durability_witness :
    ∃ s1 q s2, push_all sample_runtime
        [(DPCTL_OPENCL, DPCTL_GPU, 0), (DPCTL_OPENCL, DPCTL_CPU, 0)] [sample_cpu_queue] =
          .ok (some s1) ∧
      DPCTLQueueMgr_GetNumActivatedQueues s1 = 2 ∧
      DPCTLQueueMgr_SetAsDefaultQueue sample_runtime DPCTL_LEVEL_ZERO DPCTL_GPU 0 s1 =
        .ok (some q, s2) ∧
      DPCTLQueueMgr_GetQueue sample_runtime DPCTL_LEVEL_ZERO DPCTL_GPU 0 = .ok (some q) ∧
      DPCTLQueueMgr_GetNumActivatedQueues s2 = 2 ∧
      pop_times 2 s2 = [q] ∧
      DPCTLQueueMgr_GetCurrentQueue (pop_times 2 s2) = .ok (some q) :=
  C6_default_durability sample_runtime sample_cpu_queue
    [(DPCTL_OPENCL, DPCTL_GPU, 0), (DPCTL_OPENCL, DPCTL_CPU, 0)] (by decide)
    DPCTL_LEVEL_ZERO DPCTL_GPU 0 (by decide)

theorem enumerators_unsupported (BETy : DPCTLSyclBackendType) (DeviceTy : DPCTLSyclDeviceType)
    (hb : BETy ∈ DPCTLSyclBackendType.enumerators)
    (hd : DeviceTy ∈ DPCTLSyclDeviceType.enumerators)
    (h : ¬ ((BETy = DPCTL_OPENCL ∧ DeviceTy = DPCTL_CPU) ∨
      (BETy = DPCTL_OPENCL ∧ DeviceTy = DPCTL_GPU) ∨
      (BETy = DPCTL_LEVEL_ZERO ∧ DeviceTy = DPCTL_GPU))) :
    supported BETy DeviceTy = false := by
  simp only [DPCTLSyclBackendType.enumerators, DPCTLSyclDeviceType.enumerators, List.mem_cons,
    List.mem_singleton, List.not_mem_nil, or_false] at hb hd
  rcases hb with rfl | rfl | rfl | rfl | rfl <;> rcases hd with rfl | rfl | rfl | rfl <;>
    first
      | rfl
      | exact absurd (by decide) h

/-- C7, as amended: for every (backend, class) pair whose or-ed dispatch key
`BETy | DeviceTy` is none of the three case labels, which includes every pair of
enumerators other than (OpenCL, CPU), (OpenCL, GPU) and (Level-Zero, GPU), and
for every index, every runtime and every stack, `get_queue`, `push_queue` and
`set_default_queue` return none and leave the activation stack as it was, so
`get_current` is unchanged, and `get_num_queues` returns 0. -/
theorem C7_unsupported_pair_rejected (R : Runtime) (BETy : DPCTLSyclBackendType)
    (DeviceTy : DPCTLSyclDeviceType) (DNum : Nat) (s : QVec)
    (h : (switch_key BETy DeviceTy ≠ case_opencl_cpu ∧
        switch_key BETy DeviceTy ≠ case_opencl_gpu ∧
        switch_key BETy DeviceTy ≠ case_level0_gpu) ∨
      (BETy ∈ DPCTLSyclBackendType.enumerators ∧ DeviceTy ∈ DPCTLSyclDeviceType.enumerators ∧
        ¬ ((BETy = DPCTL_OPENCL ∧ DeviceTy = DPCTL_CPU) ∨
          (BETy = DPCTL_OPENCL ∧ DeviceTy = DPCTL_GPU) ∨
          (BETy = DPCTL_LEVEL_ZERO ∧ DeviceTy = DPCTL_GPU)))) :
    DPCTLQueueMgr_GetQueue R BETy DeviceTy DNum = .ok none ∧
      DPCTLQueueMgr_PushQueue R BETy DeviceTy DNum s = .ok (none, s) ∧
      DPCTLQueueMgr_SetAsDefaultQueue R BETy DeviceTy DNum s = .ok (none, s) ∧
      DPCTLQueueMgr_GetNumQueues R BETy DeviceTy = .ok 0 := by
  have hsup : supported BETy DeviceTy = false := by
    rcases h with h | ⟨hb, hd, h⟩
    · exact (supported_false_iff BETy DeviceTy).mpr h
    · exact enumerators_unsupported BETy DeviceTy hb hd h
  exact ⟨getQueue_unsupported R BETy DeviceTy DNum hsup,
    pushSyclQueue_unsupported R BETy DeviceTy DNum s hsup,
    setAsDefaultQueue_unsupported R BETy DeviceTy DNum s hsup,
    GetNumQueues_unsupported R BETy DeviceTy hsup⟩

/-- C7 witness: (Level-Zero, CPU), a pair of enumerators, is rejected on the
sample machine, where both a Level-Zero platform and a CPU exist; so is the
or-ed backend value `DPCTL_OPENCL | DPCTL_LEVEL_ZERO` with the class GPU, whose
key is none of the three labels. -/
theorem C7_unsupported_pair_rejected_witness :
    (DPCTLQueueMgr_GetQueue sample_runtime DPCTL_LEVEL_ZERO DPCTL_CPU 0 = .ok none ∧
      DPCTLQueueMgr_PushQueue sample_runtime DPCTL_LEVEL_ZERO DPCTL_CPU 0
        [sample_cpu_queue, sample_gpu_queue] = .ok (none, [sample_cpu_queue, sample_gpu_queue]) ∧
      DPCTLQueueMgr_SetAsDefaultQueue sample_runtime DPCTL_LEVEL_ZERO DPCTL_CPU 0
        [sample_cpu_queue, sample_gpu_queue] = .ok (none, [sample_cpu_queue, sample_gpu_queue]) ∧
      DPCTLQueueMgr_GetNumQueues sample_runtime DPCTL_LEVEL_ZERO DPCTL_CPU = .ok 0) ∧
    (DPCTLQueueMgr_GetQueue sample_runtime two_backends DPCTL_GPU 0 = .ok none ∧
      DPCTLQueueMgr_PushQueue sample_runtime two_backends DPCTL_GPU 0
        [sample_cpu_queue, sample_gpu_queue] = .ok (none, [sample_cpu_queue, sample_gpu_queue]) ∧
      DPCTLQueueMgr_SetAsDefaultQueue sample_runtime two_backends DPCTL_GPU 0
        [sample_cpu_queue, sample_gpu_queue] = .ok (none, [sample_cpu_queue, sample_gpu_queue]) ∧
      DPCTLQueueMgr_GetNumQueues sample_runtime two_backends DPCTL_GPU = .ok 0) :=
  ⟨C7_unsupported_pair_rejected sample_runtime DPCTL_LEVEL_ZERO DPCTL_CPU 0
      [sample_cpu_queue, sample_gpu_queue] (Or.inr ⟨by decide, by decide, by decide⟩),
    C7_unsupported_pair_rejected sample_runtime two_backends DPCTL_GPU 0
      [sample_cpu_queue, sample_gpu_queue] (Or.inl ⟨by decide, by decide, by decide⟩)⟩

/-- C7 counterexample: the backend value `DPCTL_OPENCL | DPCTL_CPU` (0x10001)
with the class `DPCTL_CPU` is a pair other than (OpenCL, CPU), (OpenCL, GPU)
and (Level-Zero, GPU), yet its or-ed key is the case label of (OpenCL, CPU): on
the sample machine `get_queue` returns the cached OpenCL CPU queue, `push_queue`
and `set_default_queue` return it and change the stack, and `get_num_queues`
returns 1. -/
theorem C7_counterexample :
    ¬ ((or_ed_backend = DPCTL_OPENCL ∧ DPCTL_CPU = DPCTL_CPU) ∨
      (or_ed_backend = DPCTL_OPENCL ∧ DPCTL_CPU = DPCTL_GPU) ∨
      (or_ed_backend = DPCTL_LEVEL_ZERO ∧ DPCTL_CPU = DPCTL_GPU)) ∧
    or_ed_backend.val = 0x10001 ∧
    DPCTLQueueMgr_GetQueue sample_runtime or_ed_backend DPCTL_CPU 0 =
      .ok (some sample_cpu_queue) ∧
    DPCTLQueueMgr_PushQueue sample_runtime or_ed_backend DPCTL_CPU 0 [sample_gpu_queue] =
      .ok (some sample_cpu_queue, [sample_gpu_queue, sample_cpu_queue]) ∧
    DPCTLQueueMgr_SetAsDefaultQueue sample_runtime or_ed_backend DPCTL_CPU 0
      [sample_gpu_queue] = .ok (some sample_cpu_queue, [sample_cpu_queue]) ∧
    DPCTLQueueMgr_GetNumQueues sample_runtime or_ed_backend DPCTL_CPU = .ok 1 := by
  decide

theorem GetNumQueues_ok_of_supported (R : Runtime) (k : SupportedPair) (n : Nat)
    (h : DPCTLQueueMgr_GetNumQueues R k.BETy k.DeviceTy = .ok n) :
    ∃ qs, k.queues R = .ok qs ∧ qs.length = n := by
  rw [GetNumQueues_supported] at h
  cases hq : k.queues R with
  | error e => simp [hq, Except.bind] at h
  | ok qs =>
    simp only [hq, Except.bind, Except.ok.injEq] at h
    exact ⟨qs, rfl, h⟩

/-- C8: for every (backend, class) pair and every index, `get_queue(backend,
class, index)` returns a queue if and only if the pair is supported and
`index < get_num_queues(backend, class)`; in particular, with
`n = get_num_queues(backend, class)`, `get_queue(backend, class, n)` returns
none, also when `n = 0`. -/
theorem C8_get_queue_iff_in_range (R : Runtime) (BETy : DPCTLSyclBackendType)
    (DeviceTy : DPCTLSyclDeviceType) (DNum : Nat) :
    ((∃ q, DPCTLQueueMgr_GetQueue R BETy DeviceTy DNum = .ok (some q)) ↔
      (supported BETy DeviceTy = true ∧
        ∃ n, DPCTLQueueMgr_GetNumQueues R BETy DeviceTy = .ok n ∧ DNum < n)) ∧
    (∀ n, DPCTLQueueMgr_GetNumQueues R BETy DeviceTy = .ok n →
      DPCTLQueueMgr_GetQueue R BETy DeviceTy n = .ok none) := by
  cases hsup : supported BETy DeviceTy with
  | false =>
    refine ⟨?_, ?_⟩
    · simp [DPCTLQueueMgr_GetQueue, getQueue_unsupported R BETy DeviceTy DNum hsup]
    · intro n _
      exact getQueue_unsupported R BETy DeviceTy n hsup
  | true =>
    obtain ⟨k, hk⟩ := (supported_iff BETy DeviceTy).mp hsup
    refine ⟨?_, ?_⟩
    · simp only [DPCTLQueueMgr_GetQueue, getQueue_of_key R BETy DeviceTy k hk,
        GetNumQueues_of_key R BETy DeviceTy k hk, true_and]
      cases hq : k.queues R with
      | error e => simp [Except.bind]
      | ok qs =>
        simp only [Except.bind, Except.ok.injEq]
        constructor
        · rintro ⟨q, hq1⟩
          refine ⟨qs.length, rfl, ?_⟩
          by_contra hlt
          rw [List.getElem?_eq_none (Nat.le_of_not_lt hlt)] at hq1
          cases hq1
        · rintro ⟨n, rfl, hlt⟩
          exact ⟨qs[DNum], List.getElem?_eq_getElem hlt⟩
    · intro n hn
      rw [GetNumQueues_of_key R BETy DeviceTy k hk, ← GetNumQueues_supported] at hn
      obtain ⟨qs, hq, hlen⟩ := GetNumQueues_ok_of_supported R k n hn
      simp [DPCTLQueueMgr_GetQueue, getQueue_of_key R BETy DeviceTy k hk, hq, Except.bind,
        ← hlen]

/-- C8 witness: on the sample machine one OpenCL CPU queue is cached, index 0
gives a queue and index 1, one past the end, gives none; on the host-only
machine the count is 0 and index 0 gives none. -/
theorem C8_get_queue_iff_in_range_witness :
    (∃ q, DPCTLQueueMgr_GetQueue sample_runtime DPCTL_OPENCL DPCTL_CPU 0 = .ok (some q)) ∧
      DPCTLQueueMgr_GetQueue sample_runtime DPCTL_OPENCL DPCTL_CPU 1 = .ok none ∧
      DPCTLQueueMgr_GetQueue host_only_runtime DPCTL_OPENCL DPCTL_CPU 0 = .ok none :=
  ⟨(C8_get_queue_iff_in_range sample_runtime DPCTL_OPENCL DPCTL_CPU 0).1.mpr
      ⟨by decide, 1, by decide, by decide⟩,
    (C8_get_queue_iff_in_range sample_runtime DPCTL_OPENCL DPCTL_CPU 0).2 1 (by decide),
    (C8_get_queue_iff_in_range host_only_runtime DPCTL_OPENCL DPCTL_CPU 0).2 0 (by decide)⟩

/-- C9: for every runtime, stack and (backend, class, index), whenever
`push_queue` or `set_default_queue` returns none the activation stack after the
call is the stack before it; and each of them does return none, with the stack as
it was, when the stack is empty, when the pair is unsupported, and when
`index ≥ get_num_queues(backend, class)`. -/
theorem C9_failure_leaves_stack (R : Runtime) (BETy : DPCTLSyclBackendType)
    (DeviceTy : DPCTLSyclDeviceType) (DNum : Nat) (s : QVec) :
    (∀ s1, DPCTLQueueMgr_PushQueue R BETy DeviceTy DNum s = .ok (none, s1) → s1 = s) ∧
    (∀ s1, DPCTLQueueMgr_SetAsDefaultQueue R BETy DeviceTy DNum s = .ok (none, s1) → s1 = s) ∧
    ((s = [] ∨ supported BETy DeviceTy = false ∨
        ∃ n, DPCTLQueueMgr_GetNumQueues R BETy DeviceTy = .ok n ∧ n ≤ DNum) →
      DPCTLQueueMgr_PushQueue R BETy DeviceTy DNum s = .ok (none, s) ∧
      DPCTLQueueMgr_SetAsDefaultQueue R BETy DeviceTy DNum s = .ok (none, s)) := by
  refine ⟨?_, ?_, ?_⟩
  · intro s1 h
    rcases pushSyclQueue_result R BETy DeviceTy DNum s s1 none h with ⟨_, h2⟩ | ⟨q, h1, _, _⟩
    · exact h2
    · cases h1
  · intro s1 h
    rcases setAsDefaultQueue_result R BETy DeviceTy DNum s s1 none h with
      ⟨_, h2⟩ | ⟨q, d, rest, h1, _, _⟩
    · exact h2
    · cases h1
  · intro h
    by_cases hs : s = []
    · subst hs
      exact ⟨pushSyclQueue_nil R BETy DeviceTy DNum, setAsDefaultQueue_nil R BETy DeviceTy DNum⟩
    · cases hsup : supported BETy DeviceTy with
      | false =>
        exact ⟨pushSyclQueue_unsupported R BETy DeviceTy DNum s hsup,
          setAsDefaultQueue_unsupported R BETy DeviceTy DNum s hsup⟩
      | true =>
        rcases h with h | h | ⟨n, hn, hle⟩
        · exact absurd h hs
        · rw [hsup] at h
          cases h
        · obtain ⟨k, hk⟩ := (supported_iff BETy DeviceTy).mp hsup
          rw [GetNumQueues_of_key R BETy DeviceTy k hk, ← GetNumQueues_supported] at hn
          obtain ⟨qs, hq, hlen⟩ := GetNumQueues_ok_of_supported R k n hn
          have hnone : qs[DNum]? = none := List.getElem?_eq_none (by omega)
          cases s with
          | nil => exact absurd rfl hs
          | cons d rest =>
            constructor
            · simp [DPCTLQueueMgr_PushQueue,
                pushSyclQueue_of_key R BETy DeviceTy k hk DNum (d :: rest) hs, hq, Except.bind,
                hnone]
            · simp [DPCTLQueueMgr_SetAsDefaultQueue,
                setAsDefaultQueue_of_key R BETy DeviceTy k hk DNum d rest, hq, Except.bind,
                hnone]

/-- C9 witness: on the sample machine `push_queue(OpenCL, GPU, 1)` and
`set_default_queue(OpenCL, GPU, 1)`, one past the single cached queue, return
none and leave a two-slot stack as it was. -/
theorem C9_failure_leaves_stack_witness :
    DPCTLQueueMgr_PushQueue sample_runtime DPCTL_OPENCL DPCTL_GPU 1
        [sample_cpu_queue, sample_l0_queue] = .ok (none, [sample_cpu_queue, sample_l0_queue]) ∧
      DPCTLQueueMgr_SetAsDefaultQueue sample_runtime DPCTL_OPENCL DPCTL_GPU 1
        [sample_cpu_queue, sample_l0_queue] = .ok (none, [sample_cpu_queue, sample_l0_queue]) :=
  (C9_failure_leaves_stack sample_runtime DPCTL_OPENCL DPCTL_GPU 1
    [sample_cpu_queue, sample_l0_queue]).2.2 (Or.inr (Or.inr ⟨1, by decide, by decide⟩))

theorem init_queues_loop_impl (c : Nat) (BE : backend) (DTy : device_type)
    (ps : List platform) (queues r : QVec)
    (h : QMgrHelper.init_queues_loop c BE DTy ps queues = .ok r)
    (hq : ∀ i q, queues[i]? = some q → q.impl = queue_impl.of_init_queues BE DTy (c + i)) :
    ∀ i q, r[i]? = some q → q.impl = queue_impl.of_init_queues BE DTy (c + i) := by
  have happ : ∀ (qs : QVec) (x : queue),
      (∀ i q, qs[i]? = some q → q.impl = queue_impl.of_init_queues BE DTy (c + i)) →
      x.impl = queue_impl.of_init_queues BE DTy (c + qs.length) →
      ∀ i q, (qs ++ [x])[i]? = some q → q.impl = queue_impl.of_init_queues BE DTy (c + i) := by
    intro qs x hqs hx i q hi
    by_cases hlt : i < qs.length
    · rw [List.getElem?_append_left hlt] at hi
      exact hqs i q hi
    · have hle : qs.length ≤ i := Nat.le_of_not_lt hlt
      rw [List.getElem?_append_right hle] at hi
      have hz : i - qs.length = 0 := by
        by_contra hne
        have h0 : ([x] : QVec)[i - qs.length]? = none :=
          List.getElem?_eq_none (by simp; omega)
        rw [h0] at hi
        cases hi
      rw [hz] at hi
      simp only [List.getElem?_cons_zero, Option.some.injEq] at hi
      have hi2 : i = qs.length := by omega
      rw [← hi, hi2]
      exact hx
  induction ps generalizing queues with
  | nil =>
    simp only [QMgrHelper.init_queues_loop, Except.ok.injEq] at h
    rw [← h]
    exact hq
  | cons p rest ih =>
    simp only [QMgrHelper.init_queues_loop] at h
    split at h
    · exact ih queues h hq
    · split at h
      · cases h
      · split at h
        · split at h
          · simp only [Except.ok.injEq] at h
            rw [← h]
            exact happ queues _ hq rfl
          · exact ih queues h hq
        · split at h
          · exact ih _ h (happ queues _ hq rfl)
          · exact ih queues h hq

theorem init_queues_impl (R : Runtime) (BE : backend) (DTy : device_type) (qs : QVec)
    (h : QMgrHelper.init_queues R BE DTy = .ok qs) :
    ∀ i q, qs[i]? = some q → q.impl = queue_impl.of_init_queues BE DTy (R.constructed + i) := by
  unfold QMgrHelper.init_queues at h
  cases hps : R.get_platforms with
  | error e => simp [hps] at h
  | ok ps =>
    simp only [hps] at h
    exact init_queues_loop_impl R.constructed BE DTy ps [] qs h (by simp)

theorem rebuilt_queue_not_equal (R : Runtime) (BE : backend) (DTy : device_type)
    (qs qs2 : QVec) (i : Nat) (q q2 : queue)
    (h : QMgrHelper.init_queues R BE DTy = .ok qs)
    (h2 : QMgrHelper.init_queues (R.after_constructing qs.length) BE DTy = .ok qs2)
    (hq : qs[i]? = some q) (hq2 : qs2[i]? = some q2) : q.equals q2 = false := by
  have h3 := init_queues_impl R BE DTy qs h i q hq
  have h4 := init_queues_impl (R.after_constructing qs.length) BE DTy qs2 h2 i q2 hq2
  have hlt : i < qs.length := by
    by_contra hge
    rw [List.getElem?_eq_none (Nat.le_of_not_lt hge)] at hq
    cases hq
  simp only [queue.equals, h3, h4, Runtime.after_constructing, decide_eq_false_iff_not,
    queue_impl.of_init_queues.injEq, true_and]
  omega

theorem guarded_with_state (qs : QVec) (DNum : Nat) (P1 : Process) :
    (if DNum ≥ qs.length then (Except.ok (none, P1) : Except Err (Option queue × Process))
      else (QVec.subscript qs DNum).bind fun q => .ok (some q, P1)) = .ok (qs[DNum]?, P1) := by
  by_cases h : DNum < qs.length
  · simp [QVec.subscript, List.getElem?_eq_getElem h, Except.bind, Nat.not_le.mpr h]
  · have h1 : qs.length ≤ DNum := Nat.le_of_not_lt h
    simp [h1, List.getElem?_eq_none h1]

theorem Process_getQueue_of_pair (P : Process) (k : SupportedPair) (DNum : Nat) :
    P.getQueue k.BETy k.DeviceTy DNum = (P.get_queues k).bind fun r => .ok (r.1[DNum]?, r.2) := by
  cases k <;>
    simp only [Process.getQueue, Process.get_queues, SupportedPair.BETy, SupportedPair.DeviceTy,
      key_opencl_cpu, key_opencl_gpu, key_level0_gpu, case_gpu_ne_cpu, case_level0_ne_cpu,
      case_level0_ne_gpu, if_true, if_false, guarded_with_state]

theorem Process_GetNumQueues_of_pair (P : Process) (k : SupportedPair) :
    P.DPCTLQueueMgr_GetNumQueues k.BETy k.DeviceTy =
      (P.get_queues k).bind fun r => .ok (r.1.length, r.2) := by
  cases k <;>
    simp only [Process.DPCTLQueueMgr_GetNumQueues, Process.get_queues, SupportedPair.BETy,
      SupportedPair.DeviceTy, key_opencl_cpu, key_opencl_gpu, key_level0_gpu, case_gpu_ne_cpu,
      case_level0_ne_cpu, case_level0_ne_gpu, if_true, if_false]

theorem Process_get_queues_hit (P : Process) (k : SupportedPair) (qs : QVec)
    (h : P.static k = some qs) : P.get_queues k = .ok (qs, P) := by
  cases k <;> simp only [Process.static] at h <;>
    simp [Process.get_queues, Process.get_opencl_cpu_queues, Process.get_opencl_gpu_queues,
      Process.get_level0_gpu_queues, h]

theorem Process_get_queues_miss (P : Process) (k : SupportedPair) (h : P.static k = none) :
    P.get_queues k =
      match QMgrHelper.init_queues P.runtime k.backend k.device_type with
      | .error e => .error e
      | .ok qs => .ok (qs, match k with
        | .opencl_cpu => { P with
            runtime := P.runtime.after_constructing qs.length, opencl_cpu_queues := some qs }
        | .opencl_gpu => { P with
            runtime := P.runtime.after_constructing qs.length, opencl_gpu_queues := some qs }
        | .level0_gpu => { P with
            runtime := P.runtime.after_constructing qs.length, level0_gpu_queues := some qs }) := by
  cases k <;> simp only [Process.static] at h <;>
    simp only [Process.get_queues, Process.get_opencl_cpu_queues, Process.get_opencl_gpu_queues,
      Process.get_level0_gpu_queues, h, SupportedPair.backend, SupportedPair.device_type]

theorem Process_get_queues_result (P P1 : Process) (k : SupportedPair) (qs : QVec)
    (h : P.get_queues k = .ok (qs, P1)) :
    P1.static k = some qs ∧ P1.active_queues = P.active_queues ∧
      (∀ j, j ≠ k → P1.static j = P.static j) ∧
      ((P.static k = some qs ∧ P1 = P) ∨
        (P.static k = none ∧
          QMgrHelper.init_queues P.runtime k.backend k.device_type = .ok qs ∧
          P1.runtime = P.runtime.after_constructing qs.length)) := by
  cases hst : P.static k with
  | some qs0 =>
    rw [Process_get_queues_hit P k qs0 hst] at h
    simp only [Except.ok.injEq, Prod.mk.injEq] at h
    obtain ⟨h1, h2⟩ := h
    subst h1 h2
    exact ⟨hst, rfl, fun _ _ => rfl, Or.inl ⟨rfl, rfl⟩⟩
  | none =>
    rw [Process_get_queues_miss P k hst] at h
    cases hinit : QMgrHelper.init_queues P.runtime k.backend k.device_type with
    | error e => simp [hinit] at h
    | ok qs1 =>
      simp only [hinit, Except.ok.injEq, Prod.mk.injEq] at h
      obtain ⟨h1, h2⟩ := h
      subst h1
      subst h2
      refine ⟨?_, ?_, ?_, Or.inr ⟨rfl, rfl, ?_⟩⟩
      · cases k <;> rfl
      · cases k <;> rfl
      · intro j hj
        cases k <;> cases j <;> first
          | exact absurd rfl hj
          | rfl
      · cases k <;> rfl

/-- C10: for every supported (backend, class) and every index, in every state of
the process: a `get_queue(backend, class, i)` call returns when the list of the
pair is already built or its build returns; the call leaves the list of the pair
built and returns its `i`-th queue, which is a queue when `i` is in range; a
second call made right after returns the same handle value, which compares equal
to the first, and changes nothing at all; the first call leaves the activation
stack and the lists of the other pairs as they were, changes nothing at all when
the list was already built, and otherwise only builds it; `get_num_queues`
gives the length of the list before and after, and `get_current` the same
answer before and after.  When the list was not yet built, the first call
returns what `get_queue` returns on the runtime alone, and a list built again
after it would hold queues that do not compare equal to the one returned. -/
theorem C10_cache_determinism (P : Process) (k : SupportedPair) (DNum : Nat) :
    ((∃ qs, P.static k = some qs ∨
        QMgrHelper.init_queues P.runtime k.backend k.device_type = .ok qs) →
      ∃ r1 P1, P.getQueue k.BETy k.DeviceTy DNum = .ok (r1, P1)) ∧
    (∀ r1 P1, P.getQueue k.BETy k.DeviceTy DNum = .ok (r1, P1) →
      ∃ qs, P1.static k = some qs ∧ r1 = qs[DNum]? ∧
        (DNum < qs.length → ∃ q, r1 = some q) ∧
        P1.getQueue k.BETy k.DeviceTy DNum = .ok (r1, P1) ∧
        (∀ q1 q2 P2, r1 = some q1 →
          P1.getQueue k.BETy k.DeviceTy DNum = .ok (some q2, P2) →
          q1.equals q2 = true ∧ P2 = P1) ∧
        P1.active_queues = P.active_queues ∧
        (∀ j, j ≠ k → P1.static j = P.static j) ∧
        (∀ qs0, P.static k = some qs0 → qs0 = qs ∧ P1 = P) ∧
        (P.static k = none →
          QMgrHelper.init_queues P.runtime k.backend k.device_type = .ok qs ∧
          P1.runtime = P.runtime.after_constructing qs.length ∧
          DPCTLQueueMgr_GetQueue P.runtime k.BETy k.DeviceTy DNum = .ok r1 ∧
          ∀ qs2 q1 q2, QMgrHelper.init_queues P1.runtime k.backend k.device_type = .ok qs2 →
            r1 = some q1 → qs2[DNum]? = some q2 → q1.equals q2 = false) ∧
        P1.DPCTLQueueMgr_GetNumQueues k.BETy k.DeviceTy = .ok (qs.length, P1) ∧
        (∀ n P2, P.DPCTLQueueMgr_GetNumQueues k.BETy k.DeviceTy = .ok (n, P2) →
          n = qs.length) ∧
        (∀ c P2, P.getCurrentQueue = .ok (c, P2) → P1.getCurrentQueue = .ok (c, P1))) := by
  refine ⟨?_, ?_⟩
  · rintro ⟨qs, hqs | hqs⟩
    · exact ⟨qs[DNum]?, P, by
        rw [Process_getQueue_of_pair, Process_get_queues_hit P k qs hqs]
        rfl⟩
    · cases hst : P.static k with
      | some qs0 =>
        exact ⟨qs0[DNum]?, P, by
          rw [Process_getQueue_of_pair, Process_get_queues_hit P k qs0 hst]
          rfl⟩
      | none =>
        rw [Process_getQueue_of_pair, Process_get_queues_miss P k hst, hqs]
        exact ⟨_, _, rfl⟩
  · intro r1 P1 h1
    rw [Process_getQueue_of_pair] at h1
    cases hget : P.get_queues k with
    | error e => simp [hget, Except.bind] at h1
    | ok r =>
      obtain ⟨qs, P1a⟩ := r
      simp only [hget, Except.bind, Except.ok.injEq, Prod.mk.injEq] at h1
      obtain ⟨hr, hP⟩ := h1
      subst hP
      obtain ⟨hst1, hact, hother, hcase⟩ := Process_get_queues_result P P1a k qs hget
      have hsecond : P1a.getQueue k.BETy k.DeviceTy DNum = .ok (r1, P1a) := by
        rw [Process_getQueue_of_pair, Process_get_queues_hit P1a k qs hst1, ← hr]
        rfl
      refine ⟨qs, hst1, hr.symm, ?_, hsecond, ?_, hact, hother, ?_, ?_, ?_, ?_, ?_⟩
      · intro hi
        exact ⟨qs[DNum], by rw [← hr, List.getElem?_eq_getElem hi]⟩
      · intro q1 q2 P2 hq1 h2
        rw [hsecond] at h2
        simp only [Except.ok.injEq, Prod.mk.injEq] at h2
        obtain ⟨h3, h4⟩ := h2
        rw [hq1] at h3
        simp only [Option.some.injEq] at h3
        subst h3
        exact ⟨queue_equals_self q1, h4.symm⟩
      · intro qs0 hqs0
        rcases hcase with ⟨h5, h6⟩ | ⟨h5, _, _⟩
        · rw [hqs0] at h5
          simp only [Option.some.injEq] at h5
          exact ⟨h5, h6⟩
        · rw [hqs0] at h5
          cases h5
      · intro hnone
        rcases hcase with ⟨h5, _⟩ | ⟨_, h6, h7⟩
        · rw [hnone] at h5
          cases h5
        · refine ⟨h6, h7, ?_, ?_⟩
          · have hpure : k.queues P.runtime =
                QMgrHelper.init_queues P.runtime k.backend k.device_type := by
              cases k <;> rfl
            rw [DPCTLQueueMgr_GetQueue, getQueue_supported, hpure, h6, ← hr]
            rfl
          · intro qs2 q1 q2 hqs2 hq1 hq2
            rw [h7] at hqs2
            rw [hq1] at hr
            exact rebuilt_queue_not_equal P.runtime k.backend k.device_type qs qs2 DNum q1 q2
              h6 hqs2 hr hq2
      · rw [Process_GetNumQueues_of_pair, Process_get_queues_hit P1a k qs hst1]
        rfl
      · intro n P2 hn
        rw [Process_GetNumQueues_of_pair, hget] at hn
        simp only [Except.bind, Except.ok.injEq, Prod.mk.injEq] at hn
        exact hn.1.symm
      · intro c P2 hc
        simp only [Process.getCurrentQueue, getCurrentQueue_eq, Except.bind, Except.ok.injEq,
          Prod.mk.injEq] at hc ⊢
        rw [hact]
        exact ⟨hc.1, trivial⟩

/-- C10 witness: on the sample machine, in a process that has not built the
OpenCL GPU list yet, `get_queue(OpenCL, GPU, 0)` builds the list and returns its
queue, a second call returns the same queue and leaves the process as the first
call left it, and the two active queues are as before. -/
theorem C10_cache_determinism_witness :
    sample_process.getQueue DPCTL_OPENCL DPCTL_GPU 0 =
        .ok (some sample_gpu_queue, sample_process_after) ∧
      sample_process_after.getQueue DPCTL_OPENCL DPCTL_GPU 0 =
        .ok (some sample_gpu_queue, sample_process_after) ∧
      sample_gpu_queue.equals sample_gpu_queue = true ∧
      sample_process_after.active_queues = sample_process.active_queues ∧
      sample_process_after.DPCTLQueueMgr_GetNumQueues DPCTL_OPENCL DPCTL_GPU =
        .ok (1, sample_process_after) := by
  have hfirst : sample_process.getQueue DPCTL_OPENCL DPCTL_GPU 0 =
      .ok (some sample_gpu_queue, sample_process_after) := rfl
  obtain ⟨qs, hst, _, _, hsecond, heq, hact, _, _, _, hnum, _, _⟩ :=
    (C10_cache_determinism sample_process SupportedPair.opencl_gpu 0).2
      (some sample_gpu_queue) sample_process_after hfirst
  have hqs : qs = [sample_gpu_queue] := by
    have h : sample_process_after.static SupportedPair.opencl_gpu = some [sample_gpu_queue] :=
      rfl
    rw [h] at hst
    simp only [Option.some.injEq] at hst
    exact hst.symm
  subst hqs
  exact ⟨hfirst, hsecond, (heq sample_gpu_queue sample_gpu_queue sample_process_after rfl
    hsecond).1, hact, hnum⟩

theorem init_queues_loop_sound (c : Nat) (BE : backend) (DTy : device_type) (ps : List platform)
    (queues r : QVec) (h : QMgrHelper.init_queues_loop c BE DTy ps queues = .ok r) :
    ∃ t sub, r = queues ++ t ∧ sub.Sublist ps ∧ List.Forall₂ (bound_to BE DTy) t sub := by
  induction ps generalizing queues with
  | nil =>
    simp only [QMgrHelper.init_queues_loop, Except.ok.injEq] at h
    exact ⟨[], [], by simp [h], List.Sublist.refl _, List.Forall₂.nil⟩
  | cons p rest ih =>
    simp only [QMgrHelper.init_queues_loop] at h
    split at h
    · obtain ⟨t, sub, h1, h2, h3⟩ := ih queues h
      exact ⟨t, sub, h1, List.Sublist.cons p h2, h3⟩
    · rename_i hhost
      have hhost1 : p.is_host = false := by simpa using hhost
      split at h
      · cases h
      · rename_i Devices hdev
        split at h
        · rename_i d
          split at h
          · rename_i hm
            simp only [Except.ok.injEq] at h
            refine ⟨[queue.mk (queue_impl.of_init_queues BE DTy (c + queues.length))
              (context.mk [d]) d], [p], h.symm, ?_, ?_⟩
            · exact List.Sublist.cons₂ p (List.nil_sublist rest)
            · refine List.Forall₂.cons ⟨hhost1, hm.2, [d], hdev, ?_, hm.1, ?_, ?_⟩
                List.Forall₂.nil
              · simp
              · simp
              · intro x hx
                have hx1 : x = d := by simpa using hx
                subst hx1
                exact ⟨by simp, hm.1⟩
          · obtain ⟨t, sub, h1, h2, h3⟩ := ih queues h
            exact ⟨t, sub, h1, List.Sublist.cons p h2, h3⟩
        · split at h
          · rename_i d tl hsel
            obtain ⟨t, sub, h1, h2, h3⟩ := ih _ h
            refine ⟨queue.mk (queue_impl.of_init_queues BE DTy (c + queues.length))
              (context.mk (List.filter
              (fun d => decide (d.device_type = DTy ∧ p.get_backend = BE)) Devices)) d :: t,
              p :: sub, by simp [h1], List.Sublist.cons₂ p h2, List.Forall₂.cons ?_ h3⟩
            have hdmem : d ∈ List.filter
                (fun d => decide (d.device_type = DTy ∧ p.get_backend = BE)) Devices := by
              rw [hsel]; simp
            have hd := List.mem_filter.mp hdmem
            have hd2 : d.device_type = DTy ∧ p.get_backend = BE := by simpa using hd.2
            refine ⟨hhost1, hd2.2, Devices, hdev, hd.1, hd2.1, hdmem, ?_⟩
            intro x hx
            have hx1 := List.mem_filter.mp hx
            have hx2 : x.device_type = DTy ∧ p.get_backend = BE := by simpa using hx1.2
            exact ⟨hx1.1, hx2.1⟩
          · obtain ⟨t, sub, h1, h2, h3⟩ := ih queues h
            exact ⟨t, sub, h1, List.Sublist.cons p h2, h3⟩

theorem init_queues_loop_returns (c : Nat) (BE : backend) (DTy : device_type) (ps : List platform)
    (queues : QVec)
    (hok : ∀ p ∈ ps, p.is_host = false → ∃ Devices, p.get_devices = .ok Devices) :
    ∃ r, QMgrHelper.init_queues_loop c BE DTy ps queues = .ok r := by
  induction ps generalizing queues with
  | nil => exact ⟨queues, rfl⟩
  | cons p rest ih =>
    have ihr := fun qs => ih qs (fun x hx => hok x (List.mem_cons_of_mem p hx))
    simp only [QMgrHelper.init_queues_loop]
    split
    · exact ihr queues
    · rename_i hhost
      obtain ⟨Devices, hdev⟩ := hok p (List.mem_cons_self p rest) (by simpa using hhost)
      rw [hdev]
      simp only
      split
      · split
        · exact ⟨_, rfl⟩
        · exact ihr queues
      · split
        · exact ihr _
        · exact ihr queues

theorem init_queues_loop_grows (c : Nat) (BE : backend) (DTy : device_type) (ps : List platform)
    (queues r : QVec) (p : platform) (Devices : List device) (d : device)
    (hp : p ∈ ps) (hhost : p.is_host = false) (hdev : p.get_devices = .ok Devices)
    (hd : d ∈ Devices) (hty : d.device_type = DTy) (hbe : p.get_backend = BE)
    (h : QMgrHelper.init_queues_loop c BE DTy ps queues = .ok r) :
    queues.length < r.length := by
  induction ps generalizing queues with
  | nil => simp at hp
  | cons p0 rest ih =>
    have hp1 : p = p0 ∨ p ∈ rest := List.mem_cons.mp hp
    simp only [QMgrHelper.init_queues_loop] at h
    split at h
    · rename_i hhost0
      rcases hp1 with rfl | hp2
      · simp [hhost] at hhost0
      · exact ih queues hp2 h
    · split at h
      · cases h
      · rename_i Devices0 hdev0
        split at h
        · rename_i d0
          split at h
          · simp only [Except.ok.injEq] at h
            rw [← h]
            simp
          · rename_i hm
            rcases hp1 with rfl | hp2
            · rw [hdev] at hdev0
              simp only [Except.ok.injEq] at hdev0
              subst hdev0
              have hd0 : d = d0 := by simpa using hd
              subst hd0
              exact absurd ⟨hty, hbe⟩ hm
            · exact ih queues hp2 h
        · split at h
          · obtain ⟨t, _, h1, _, _⟩ := init_queues_loop_sound c BE DTy rest _ r h
            rw [h1]
            simp
          · rename_i hsel
            rcases hp1 with rfl | hp2
            · rw [hdev] at hdev0
              simp only [Except.ok.injEq] at hdev0
              subst hdev0
              have hmem : d ∈ List.filter
                  (fun d => decide (d.device_type = DTy ∧ p.get_backend = BE)) Devices :=
                List.mem_filter.mpr ⟨hd, by simp [hty, hbe]⟩
              rw [hsel] at hmem
              simp at hmem
            · exact ih queues hp2 h

theorem spec_catalog_from_cons_none (BE : backend) (DTy : device_type) (serial : Nat)
    (p : platform) (rest : List platform) (h : spec_catalog_entry BE DTy serial p = none) :
    spec_catalog_from BE DTy serial (p :: rest) = spec_catalog_from BE DTy serial rest := by
  simp [spec_catalog_from, h]

theorem spec_catalog_from_cons_some (BE : backend) (DTy : device_type) (serial : Nat)
    (p : platform) (rest : List platform) (q : queue)
    (h : spec_catalog_entry BE DTy serial p = some q) :
    spec_catalog_from BE DTy serial (p :: rest) =
      q :: spec_catalog_from BE DTy (serial + 1) rest := by
  simp [spec_catalog_from, h]

theorem init_queues_loop_prefix_of_spec (c : Nat) (BE : backend) (DTy : device_type)
    (ps : List platform) (queues r : QVec)
    (h : QMgrHelper.init_queues_loop c BE DTy ps queues = .ok r) :
    ∃ t, r = queues ++ t ∧ t <+: spec_catalog_from BE DTy (c + queues.length) ps := by
  induction ps generalizing queues with
  | nil =>
    simp only [QMgrHelper.init_queues_loop, Except.ok.injEq] at h
    exact ⟨[], by simp [h], List.nil_prefix⟩
  | cons p rest ih =>
    simp only [QMgrHelper.init_queues_loop] at h
    split at h
    · rename_i hhost
      obtain ⟨t, h1, h2⟩ := ih queues h
      refine ⟨t, h1, ?_⟩
      rw [spec_catalog_from_cons_none]
      · exact h2
      · simp [spec_catalog_entry, hhost]
    · rename_i hhost
      split at h
      · cases h
      · rename_i Devices hdev
        split at h
        · rename_i d
          split at h
          · rename_i hm
            simp only [Except.ok.injEq] at h
            refine ⟨[queue.mk (queue_impl.of_init_queues BE DTy (c + queues.length))
              (context.mk [d]) d], h.symm, ?_⟩
            rw [spec_catalog_from_cons_some BE DTy _ p rest
              (queue.mk (queue_impl.of_init_queues BE DTy (c + queues.length))
                (context.mk [d]) d)]
            · simp
            · simp [spec_catalog_entry, hhost, hdev, List.filter, hm]
          · rename_i hm
            obtain ⟨t, h1, h2⟩ := ih queues h
            refine ⟨t, h1, ?_⟩
            rw [spec_catalog_from_cons_none]
            · exact h2
            · simp [spec_catalog_entry, hhost, hdev, List.filter, hm]
        · split at h
          · rename_i d tl hsel
            obtain ⟨t, h1, h2⟩ := ih _ h
            refine ⟨queue.mk (queue_impl.of_init_queues BE DTy (c + queues.length))
              (context.mk (List.filter
              (fun d => decide (d.device_type = DTy ∧ p.get_backend = BE)) Devices)) d :: t,
              by simp [h1], ?_⟩
            rw [spec_catalog_from_cons_some BE DTy _ p rest
              (queue.mk (queue_impl.of_init_queues BE DTy (c + queues.length))
                (context.mk (List.filter
                  (fun d => decide (d.device_type = DTy ∧ p.get_backend = BE)) Devices)) d)]
            · have h3 : c + (queues ++ [queue.mk
                  (queue_impl.of_init_queues BE DTy (c + queues.length))
                  (context.mk (List.filter
                    (fun d => decide (d.device_type = DTy ∧ p.get_backend = BE)) Devices))
                  d]).length = c + queues.length + 1 := by simp [Nat.add_assoc]
              rw [h3] at h2
              exact (List.prefix_cons_inj _).mpr h2
            · simp only [spec_catalog_entry, hhost, hdev, hsel]
              simp
          · rename_i hsel
            obtain ⟨t, h1, h2⟩ := ih queues h
            refine ⟨t, h1, ?_⟩
            rw [spec_catalog_from_cons_none]
            · exact h2
            · simp only [spec_catalog_entry, hhost, hdev, hsel]
              simp

theorem init_queues_loop_eq_spec (c : Nat) (BE : backend) (DTy : device_type)
    (ps : List platform) (queues : QVec)
    (hok : ∀ p ∈ ps, p.is_host = false → ∃ Devices, p.get_devices = .ok Devices)
    (hns : ∀ p ∈ ps, p.is_host = false → ∀ d, p.get_devices = .ok [d] →
      ¬ (d.device_type = DTy ∧ p.get_backend = BE)) :
    QMgrHelper.init_queues_loop c BE DTy ps queues =
      .ok (queues ++ spec_catalog_from BE DTy (c + queues.length) ps) := by
  induction ps generalizing queues with
  | nil => simp [QMgrHelper.init_queues_loop, spec_catalog_from]
  | cons p rest ih =>
    have ihr := fun qs => ih qs (fun x hx => hok x (List.mem_cons_of_mem p hx))
      (fun x hx => hns x (List.mem_cons_of_mem p hx))
    simp only [QMgrHelper.init_queues_loop]
    split
    · rename_i hhost
      rw [ihr queues, spec_catalog_from_cons_none]
      simp [spec_catalog_entry, hhost]
    · rename_i hhost
      have hhost1 : p.is_host = false := by simpa using hhost
      obtain ⟨Devices, hdev⟩ := hok p (List.mem_cons_self p rest) hhost1
      rw [hdev]
      simp only
      split
      · rename_i d
        have hm := hns p (List.mem_cons_self p rest) hhost1 d hdev
        rw [if_neg hm, ihr queues, spec_catalog_from_cons_none]
        simp [spec_catalog_entry, hhost, hdev, List.filter, hm]
      · split
        · rename_i d tl hsel
          rw [ihr _, spec_catalog_from_cons_some BE DTy _ p rest
            (queue.mk (queue_impl.of_init_queues BE DTy (c + queues.length))
              (context.mk (List.filter
                (fun d => decide (d.device_type = DTy ∧ p.get_backend = BE)) Devices)) d)]
          · simp [Nat.add_assoc]
          · simp only [spec_catalog_entry, hhost, hdev, hsel]
            simp
        · rename_i hsel
          rw [ihr queues, spec_catalog_from_cons_none]
          simp only [spec_catalog_entry, hhost, hdev, hsel]
          simp

/-! ## Seeding -/

theorem supported_pair_queues_eq (R : Runtime) (k : SupportedPair) :
    k.queues R = QMgrHelper.init_queues R k.backend k.device_type := by
  cases k <;> rfl

theorem init_active_queues_try_supported (R : Runtime) (d : device) (k : SupportedPair)
    (hsel : R.select_device = .ok d)
    (hk : (R.get_platform d).get_backend = k.backend ∧ d.device_type = k.device_type) :
    QMgrHelper.init_active_queues_try R =
      (k.queues R).bind fun qs => (QVec.subscript qs 0).bind fun q => .ok [q] := by
  cases k <;>
    simp [QMgrHelper.init_active_queues_try, hsel, hk.1, hk.2, SupportedPair.backend,
      SupportedPair.device_type, SupportedPair.queues]

theorem init_active_queues_try_unsupported (R : Runtime) (d : device)
    (hsel : R.select_device = .ok d)
    (hk : ∀ k : SupportedPair,
      ¬ ((R.get_platform d).get_backend = k.backend ∧ d.device_type = k.device_type)) :
    QMgrHelper.init_active_queues_try R = .ok [] := by
  have h1 := hk .opencl_cpu
  have h2 := hk .opencl_gpu
  have h3 := hk .level0_gpu
  simp only [SupportedPair.backend, SupportedPair.device_type] at h1 h2 h3
  simp [QMgrHelper.init_active_queues_try, hsel, h1, h2, h3]

theorem supported_pair_or_not (BE : backend) (DevTy : device_type) :
    (∃ k : SupportedPair, BE = k.backend ∧ DevTy = k.device_type) ∨
      ∀ k : SupportedPair, ¬ (BE = k.backend ∧ DevTy = k.device_type) := by
  by_cases h : ∃ k : SupportedPair, BE = k.backend ∧ DevTy = k.device_type
  · exact Or.inl h
  · exact Or.inr fun k hk => h ⟨k, hk⟩

theorem init_active_queues_of_try_error (R : Runtime) (e : Err) (s0 : QVec)
    (htry : QMgrHelper.init_active_queues_try R = .error e)
    (h : QMgrHelper.init_active_queues R = .ok s0) : s0 = [] := by
  unfold QMgrHelper.init_active_queues at h
  rw [htry] at h
  cases e with
  | runtime_error =>
    simp only [Except.ok.injEq] at h
    exact h.symm
  | out_of_range => cases h

theorem init_active_queues_of_try_ok (R : Runtime) (s : QVec)
    (htry : QMgrHelper.init_active_queues_try R = .ok s) :
    QMgrHelper.init_active_queues R = .ok s := by
  unfold QMgrHelper.init_active_queues
  rw [htry]

theorem init_active_queues_length_le_one (R : Runtime) (s0 : QVec)
    (h : QMgrHelper.init_active_queues R = .ok s0) : s0.length ≤ 1 := by
  cases htry : QMgrHelper.init_active_queues_try R with
  | error e =>
    rw [init_active_queues_of_try_error R e s0 htry h]
    simp
  | ok s =>
    rw [init_active_queues_of_try_ok R s htry] at h
    simp only [Except.ok.injEq] at h
    subst h
    cases hsel : R.select_device with
    | error e => simp [QMgrHelper.init_active_queues_try, hsel] at htry
    | ok d =>
      rcases supported_pair_or_not (R.get_platform d).get_backend d.device_type with
        ⟨k, hk⟩ | hk
      · rw [init_active_queues_try_supported R d k hsel hk] at htry
        cases hq : k.queues R with
        | error e => simp [hq, Except.bind] at htry
        | ok qs =>
          cases hsub : QVec.subscript qs 0 with
          | error e => simp [hq, hsub, Except.bind] at htry
          | ok q =>
            simp only [hq, hsub, Except.bind, Except.ok.injEq] at htry
            simp [← htry]
      · rw [init_active_queues_try_unsupported R d hsel hk] at htry
        simp only [Except.ok.injEq] at htry
        simp [← htry]

/-! ## Claims, continued -/

/-- C12, the code at an input where it departs from the claim: on a machine with
two OpenCL platforms of one CPU device each, `init_queues(opencl, cpu)` returns
the queue of the first platform only, because the `break` of the single-device
branch ends the loop over the platforms, while the second platform is not the
host and its device matches, so the catalog worded by the specification has one
entry for each of the two platforms. -/
theorem C12_break_ends_enumeration :
    QMgrHelper.init_queues two_cpu_runtime backend.opencl device_type.cpu =
        .ok [sample_cpu_queue] ∧
      spec_catalog backend.opencl device_type.cpu
        [sample_host_platform, sample_opencl_cpu_platform, sample_opencl_cpu_platform_b] =
        [sample_cpu_queue, sample_cpu_b_queue] ∧
      sample_opencl_cpu_platform_b.is_host = false ∧
      sample_opencl_cpu_platform_b.get_backend = backend.opencl ∧
      sample_opencl_cpu_platform_b.get_devices = .ok [sample_cpu_b] ∧
      sample_cpu_b.device_type = device_type.cpu ∧
      DPCTLQueueMgr_GetNumQueues two_cpu_runtime DPCTL_OPENCL DPCTL_CPU = .ok 1 ∧
      DPCTLQueueMgr_GetQueue two_cpu_runtime DPCTL_OPENCL DPCTL_CPU 1 = .ok none := by
  decide

theorem GetNumActivatedQueues_cons (d : queue) (rest : QVec) :
    DPCTLQueueMgr_GetNumActivatedQueues (d :: rest) = rest.length := by
  simp [DPCTLQueueMgr_GetNumActivatedQueues]

theorem step_read_only (s s1 : QVec) (α : Type) (x : Except Err α)
    (h : (x.bind fun _ => (Except.ok s : Except Err QVec)) = .ok s1) : s1 = s := by
  cases x with
  | error e => simp [Except.bind] at h
  | ok r =>
    simp only [Except.bind, Except.ok.injEq] at h
    exact h.symm

/-- C13: `get_num_activated` is the number of slots above slot 0: 0 on the empty
stack and `length - 1` on a non-empty one, where the subtraction is made with
`length ≥ 1`.  It is 0 right after seeding, one more after each `push_queue`
that returns a queue, one less after `pop_queue` when it is positive, still 0
after `pop_queue` when it is 0, and unchanged by `set_default_queue`,
`get_queue`, `get_current` and `is_current`. -/
theorem C13_get_num_activated (R : Runtime) (s : QVec) :
    (s = [] → DPCTLQueueMgr_GetNumActivatedQueues s = 0) ∧
    (s ≠ [] → 1 ≤ s.length ∧ DPCTLQueueMgr_GetNumActivatedQueues s + 1 = s.length) ∧
    (∀ s0, QMgrHelper.init_active_queues R = .ok s0 →
      DPCTLQueueMgr_GetNumActivatedQueues s0 = 0) ∧
    (∀ BETy DeviceTy DNum q s1,
      DPCTLQueueMgr_PushQueue R BETy DeviceTy DNum s = .ok (some q, s1) →
      DPCTLQueueMgr_GetNumActivatedQueues s1 = DPCTLQueueMgr_GetNumActivatedQueues s + 1) ∧
    (0 < DPCTLQueueMgr_GetNumActivatedQueues s →
      DPCTLQueueMgr_GetNumActivatedQueues (DPCTLQueueMgr_PopQueue s) + 1 =
        DPCTLQueueMgr_GetNumActivatedQueues s) ∧
    (DPCTLQueueMgr_GetNumActivatedQueues s = 0 →
      DPCTLQueueMgr_GetNumActivatedQueues (DPCTLQueueMgr_PopQueue s) = 0) ∧
    (∀ BETy DeviceTy DNum r s1,
      DPCTLQueueMgr_SetAsDefaultQueue R BETy DeviceTy DNum s = .ok (r, s1) →
      DPCTLQueueMgr_GetNumActivatedQueues s1 = DPCTLQueueMgr_GetNumActivatedQueues s) ∧
    (∀ op s1, (op = Op.get_current ∨ (∃ q, op = Op.is_current q) ∨
        ∃ BETy DeviceTy DNum, op = Op.get_queue BETy DeviceTy DNum) →
      op.step R s = .ok s1 →
      DPCTLQueueMgr_GetNumActivatedQueues s1 = DPCTLQueueMgr_GetNumActivatedQueues s) := by
  refine ⟨?_, ?_, ?_, ?_, ?_, ?_, ?_, ?_⟩
  · rintro rfl
    rfl
  · intro hs
    cases s with
    | nil => exact absurd rfl hs
    | cons d rest => simp [DPCTLQueueMgr_GetNumActivatedQueues]
  · intro s0 h0
    have hle := init_active_queues_length_le_one R s0 h0
    cases s0 with
    | nil => rfl
    | cons d rest =>
      rw [GetNumActivatedQueues_cons]
      simp only [List.length_cons] at hle
      omega
  · intro BETy DeviceTy DNum q s1 h
    rcases pushSyclQueue_result R BETy DeviceTy DNum s s1 (some q) h with
      ⟨h1, _⟩ | ⟨q1, _, h2, hs⟩
    · cases h1
    · subst h2
      cases s with
      | nil => exact absurd rfl hs
      | cons d rest => simp [DPCTLQueueMgr_GetNumActivatedQueues]
  · intro h
    cases s with
    | nil => simp [DPCTLQueueMgr_GetNumActivatedQueues] at h
    | cons d rest =>
      rw [GetNumActivatedQueues_cons] at h ⊢
      rcases List.eq_nil_or_concat rest with rfl | ⟨l, x, rfl⟩
      · simp at h
      · have hlen : ¬ (d :: (l ++ [x])).length ≤ 1 := by simp
        have hd : (d :: (l ++ [x])).dropLast = d :: l := by
          rw [← List.cons_append, List.dropLast_concat]
        simp only [List.concat_eq_append, DPCTLQueueMgr_PopQueue, QMgrHelper.popSyclQueue, hlen,
          if_false, hd, GetNumActivatedQueues_cons]
        simp
  · intro h
    have hle : s.length ≤ 1 := by
      cases s with
      | nil => simp
      | cons d rest =>
        rw [GetNumActivatedQueues_cons] at h
        simp only [List.length_cons]
        omega
    simp only [DPCTLQueueMgr_PopQueue, QMgrHelper.popSyclQueue, hle, if_true]
    exact h
  · intro BETy DeviceTy DNum r s1 h
    rcases setAsDefaultQueue_result R BETy DeviceTy DNum s s1 r h with
      ⟨_, h2⟩ | ⟨q, d, rest, _, h2, h3⟩
    · rw [h2]
    · rw [h2, h3]
      simp [DPCTLQueueMgr_GetNumActivatedQueues]
  · intro op s1 hop h
    rcases hop with rfl | ⟨q, rfl⟩ | ⟨BETy, DeviceTy, DNum, rfl⟩
    · rw [step_read_only s s1 _ _ h]
    · rw [step_read_only s s1 _ _ h]
    · rw [step_read_only s s1 _ _ h]

/-- C13 witness: on the sample machine the seeded stack has no activation, a push
makes it one, and a pop makes it none again. -/
theorem C13_get_num_activated_witness :
    DPCTLQueueMgr_GetNumActivatedQueues [sample_cpu_queue] = 0 ∧
      DPCTLQueueMgr_GetNumActivatedQueues [sample_cpu_queue, sample_gpu_queue] =
        DPCTLQueueMgr_GetNumActivatedQueues [sample_cpu_queue] + 1 ∧
      DPCTLQueueMgr_GetNumActivatedQueues
        (DPCTLQueueMgr_PopQueue [sample_cpu_queue, sample_gpu_queue]) + 1 =
        DPCTLQueueMgr_GetNumActivatedQueues [sample_cpu_queue, sample_gpu_queue] :=
  ⟨(C13_get_num_activated sample_runtime []).2.2.1 [sample_cpu_queue] (by decide),
    (C13_get_num_activated sample_runtime [sample_cpu_queue]).2.2.2.1
      DPCTL_OPENCL DPCTL_GPU 0 sample_gpu_queue [sample_cpu_queue, sample_gpu_queue] (by decide),
    (C13_get_num_activated sample_runtime [sample_cpu_queue, sample_gpu_queue]).2.2.2.2.1
      (by decide)⟩

/-- C14, as amended: on first access, when default-device resolution returns a
device whose (backend, class) is one of (OpenCL, CPU), (OpenCL, GPU),
(Level-Zero, GPU) and the cached list of that pair is built without an error and
has a first queue, the activation stack is seeded as exactly the one-element
sequence holding that queue; when the pair is any other combination, or
resolution raises a runtime error, or the build of the cached list of the pair
raises a runtime error, the stack is seeded empty, and `get_current` on it
returns none. -/
theorem C14_stack_seeding (R : Runtime) :
    (∀ d k q rest, R.select_device = .ok d →
      ((R.get_platform d).get_backend = k.backend ∧ d.device_type = k.device_type) →
      SupportedPair.queues R k = .ok (q :: rest) →
      QMgrHelper.init_active_queues R = .ok [q]) ∧
    (∀ d, R.select_device = .ok d →
      (∀ k : SupportedPair,
        ¬ ((R.get_platform d).get_backend = k.backend ∧ d.device_type = k.device_type)) →
      QMgrHelper.init_active_queues R = .ok []) ∧
    (R.select_device = .error Err.runtime_error → QMgrHelper.init_active_queues R = .ok []) ∧
    (∀ d k, R.select_device = .ok d →
      ((R.get_platform d).get_backend = k.backend ∧ d.device_type = k.device_type) →
      SupportedPair.queues R k = .error Err.runtime_error →
      QMgrHelper.init_active_queues R = .ok []) ∧
    DPCTLQueueMgr_GetCurrentQueue [] = .ok none := by
  refine ⟨?_, ?_, ?_, ?_, rfl⟩
  · intro d k q rest hsel hk hq
    apply init_active_queues_of_try_ok
    rw [init_active_queues_try_supported R d k hsel hk, hq]
    simp [Except.bind, QVec.subscript]
  · intro d hsel hk
    exact init_active_queues_of_try_ok R [] (init_active_queues_try_unsupported R d hsel hk)
  · intro hsel
    simp [QMgrHelper.init_active_queues, QMgrHelper.init_active_queues_try, hsel]
  · intro d k hsel hk hq
    have htry : QMgrHelper.init_active_queues_try R = .error Err.runtime_error := by
      rw [init_active_queues_try_supported R d k hsel hk, hq]
      rfl
    simp [QMgrHelper.init_active_queues, htry]

/-- C14 witness: the sample machine, whose default device is the OpenCL CPU, is
seeded with the cached OpenCL CPU queue alone; the machine whose default device
is a CUDA GPU is seeded empty; so is the machine whose default device is the
OpenCL CPU while the build of the OpenCL CPU list raises. -/
theorem C14_stack_seeding_witness :
    QMgrHelper.init_active_queues sample_runtime = .ok [sample_cpu_queue] ∧
      QMgrHelper.init_active_queues cuda_default_runtime = .ok [] ∧
      QMgrHelper.init_active_queues broken_devices_runtime = .ok [] :=
  ⟨(C14_stack_seeding sample_runtime).1 sample_cpu SupportedPair.opencl_cpu sample_cpu_queue []
      rfl (by decide) (by decide),
    (C14_stack_seeding cuda_default_runtime).2.1 sample_cuda_gpu rfl
      (fun k => by cases k <;> decide),
    (C14_stack_seeding broken_devices_runtime).2.2.2.1 sample_cpu SupportedPair.opencl_cpu
      rfl (by decide) (by decide)⟩

/-- C14 counterexample: on the machine where `get_devices()` of a platform listed
before the OpenCL CPU platform raises, default-device resolution returns the
OpenCL CPU, whose (backend, class) is (OpenCL, CPU), yet the stack is seeded
empty and not with one queue: the build of the OpenCL CPU list raises inside the
`try` block and the `catch` seeds the empty vector. -/
theorem C14_counterexample :
    broken_devices_runtime.select_device = .ok sample_cpu ∧
      (broken_devices_runtime.get_platform sample_cpu).get_backend = backend.opencl ∧
      sample_cpu.device_type = device_type.cpu ∧
      QMgrHelper.get_opencl_cpu_queues broken_devices_runtime = .error Err.runtime_error ∧
      QMgrHelper.init_active_queues broken_devices_runtime = .ok [] ∧
      (∀ q, QMgrHelper.init_active_queues broken_devices_runtime ≠ .ok [q]) ∧
      DPCTLQueueMgr_GetCurrentQueue [] = .ok none := by
  refine ⟨rfl, by decide, rfl, by decide, by decide, ?_, rfl⟩
  intro q h
  have h1 : QMgrHelper.init_active_queues broken_devices_runtime = .ok [] := by decide
  rw [h1] at h
  cases h

theorem init_queues_loop_raises (c : Nat) (BE : backend) (DTy : device_type) (pre post : List platform)
    (p : platform) (e : Err) (queues : QVec)
    (hpre : ∀ x ∈ pre, x.is_host = true ∨ ∃ Devices, x.get_devices = .ok Devices ∧
      ∀ d, Devices = [d] → ¬ (d.device_type = DTy ∧ x.get_backend = BE))
    (hhost : p.is_host = false) (hdev : p.get_devices = .error e) :
    QMgrHelper.init_queues_loop c BE DTy (pre ++ p :: post) queues = .error e := by
  induction pre generalizing queues with
  | nil => simp [QMgrHelper.init_queues_loop, hhost, hdev]
  | cons x rest ih =>
    have ihr := fun qs => ih qs (fun y hy => hpre y (List.mem_cons_of_mem x hy))
    simp only [List.cons_append, QMgrHelper.init_queues_loop]
    split
    · exact ihr queues
    · rename_i hx
      rcases hpre x (List.mem_cons_self x rest) with hx1 | ⟨Devices, hd, hns⟩
      · exact absurd hx1 hx
      · rw [hd]
        simp only
        split
        · rename_i d
          rw [if_neg (hns d rfl)]
          exact ihr queues
        · split
          · exact ihr _
          · exact ihr queues

/-- C15, as amended: if `platform::get_platforms()` raises a runtime error, or
`get_devices()` raises it for a non-host platform that the loop reaches, while
the list for a (backend, class) key is being built, `init_queues` returns no
list: the error propagates out of `init_queues`, and `get_num_queues` and every
`get_queue` for that key raise it too. -/
theorem C15_enumeration_error_propagates (R : Runtime) (k : SupportedPair) (e : Err)
    (hfail : R.get_platforms = .error e ∨
      ∃ pre p post, R.get_platforms = .ok (pre ++ p :: post) ∧
        (∀ x ∈ pre, x.is_host = true ∨ ∃ Devices, x.get_devices = .ok Devices ∧
          ∀ d, Devices = [d] → ¬ (d.device_type = k.device_type ∧ x.get_backend = k.backend)) ∧
        p.is_host = false ∧ p.get_devices = .error e) :
    QMgrHelper.init_queues R k.backend k.device_type = .error e ∧
      DPCTLQueueMgr_GetNumQueues R k.BETy k.DeviceTy = .error e ∧
      ∀ DNum, DPCTLQueueMgr_GetQueue R k.BETy k.DeviceTy DNum = .error e := by
  have hinit : QMgrHelper.init_queues R k.backend k.device_type = .error e := by
    rcases hfail with h | ⟨pre, p, post, hps, hpre, hhost, hdev⟩
    · simp [QMgrHelper.init_queues, h]
    · simp only [QMgrHelper.init_queues, hps]
      exact init_queues_loop_raises R.constructed k.backend k.device_type pre post p e [] hpre hhost hdev
  have hq : k.queues R = .error e := by rw [supported_pair_queues_eq, hinit]
  refine ⟨hinit, ?_, ?_⟩
  · rw [GetNumQueues_supported, hq]
    rfl
  · intro DNum
    rw [DPCTLQueueMgr_GetQueue, getQueue_supported, hq]
    rfl

/-- C15 witness: on the machine where `get_platforms()` raises, the build of the
OpenCL GPU list, `get_num_queues` and `get_queue` raise. -/
theorem C15_enumeration_error_propagates_witness :
    QMgrHelper.init_queues no_platforms_runtime backend.opencl device_type.gpu =
        .error Err.runtime_error ∧
      DPCTLQueueMgr_GetNumQueues no_platforms_runtime DPCTL_OPENCL DPCTL_GPU =
        .error Err.runtime_error ∧
      ∀ DNum, DPCTLQueueMgr_GetQueue no_platforms_runtime DPCTL_OPENCL DPCTL_GPU DNum =
        .error Err.runtime_error :=
  C15_enumeration_error_propagates no_platforms_runtime SupportedPair.opencl_gpu
    Err.runtime_error (Or.inl rfl)

/-- C15 counterexample: on the machine where `get_platforms()` raises, and on the
machine where `get_devices()` of a platform raises, `init_queues(opencl, cpu)`
is not the empty sequence but the runtime error, `get_num_queues(OpenCL, CPU)`
is not 0 but the error, and `get_queue(OpenCL, CPU, 0)` is not none but the
error. -/
theorem C15_counterexample :
    QMgrHelper.init_queues no_platforms_runtime backend.opencl device_type.cpu =
        .error Err.runtime_error ∧
      QMgrHelper.init_queues no_platforms_runtime backend.opencl device_type.cpu ≠ .ok [] ∧
      DPCTLQueueMgr_GetNumQueues no_platforms_runtime DPCTL_OPENCL DPCTL_CPU ≠ .ok 0 ∧
      DPCTLQueueMgr_GetQueue no_platforms_runtime DPCTL_OPENCL DPCTL_CPU 0 ≠ .ok none ∧
      QMgrHelper.init_queues broken_devices_runtime backend.opencl device_type.cpu =
        .error Err.runtime_error ∧
      DPCTLQueueMgr_GetNumQueues broken_devices_runtime DPCTL_OPENCL DPCTL_CPU ≠ .ok 0 ∧
      DPCTLQueueMgr_GetQueue broken_devices_runtime DPCTL_OPENCL DPCTL_CPU 0 ≠ .ok none := by
  decide

theorem step_nil (R : Runtime) (op : Op) (s1 : QVec) (h : op.step R [] = .ok s1) : s1 = [] := by
  cases op with
  | get_current => exact step_read_only [] s1 _ (DPCTLQueueMgr_GetCurrentQueue []) h
  | get_queue BETy DeviceTy DNum =>
    exact step_read_only [] s1 _ (DPCTLQueueMgr_GetQueue R BETy DeviceTy DNum) h
  | is_current QRef => exact step_read_only [] s1 _ (DPCTLQueueMgr_IsCurrentQueue [] QRef) h
  | set_default_queue BETy DeviceTy DNum =>
    simp only [Op.step, DPCTLQueueMgr_SetAsDefaultQueue, setAsDefaultQueue_nil, Except.bind,
      Except.ok.injEq] at h
    exact h.symm
  | push_queue BETy DeviceTy DNum =>
    simp only [Op.step, DPCTLQueueMgr_PushQueue, pushSyclQueue_nil, Except.bind,
      Except.ok.injEq] at h
    exact h.symm
  | pop_queue =>
    simp only [Op.step, Except.ok.injEq] at h
    exact h.symm

theorem run_nil (R : Runtime) (ops : List Op) (s : QVec) (h : run R ops [] = .ok s) :
    s = [] := by
  induction ops with
  | nil =>
    simp only [run, Except.ok.injEq] at h
    exact h.symm
  | cons op ops ih =>
    simp only [run] at h
    cases hc : op.step R [] with
    | error e => simp [hc, Except.bind] at h
    | ok s2 =>
      have h2 := step_nil R op s2 hc
      subst h2
      simp only [hc, Except.bind] at h
      exact ih h

/-- C16: the empty activation stack is absorbing.  For every runtime and every
(backend, class, index), a supported pair with an index in range included,
`push_queue` and `set_default_queue` on the empty stack return none and leave it
empty; `pop_queue` leaves it empty, `get_current` returns none, `is_current(q)`
is false for every `q`, `get_num_activated` is 0, and every sequence of public
operations that returns ends in the empty stack. -/
theorem C16_empty_stack_absorbing (R : Runtime) :
    (∀ BETy DeviceTy DNum,
      DPCTLQueueMgr_PushQueue R BETy DeviceTy DNum [] = .ok (none, []) ∧
      DPCTLQueueMgr_SetAsDefaultQueue R BETy DeviceTy DNum [] = .ok (none, [])) ∧
    DPCTLQueueMgr_PopQueue [] = [] ∧
    DPCTLQueueMgr_GetCurrentQueue [] = .ok none ∧
    (∀ q, DPCTLQueueMgr_IsCurrentQueue [] q = .ok false) ∧
    DPCTLQueueMgr_GetNumActivatedQueues [] = 0 ∧
    (∀ ops s, run R ops [] = .ok s → s = []) := by
  refine ⟨?_, rfl, rfl, fun _ => rfl, rfl, ?_⟩
  · intro BETy DeviceTy DNum
    exact ⟨pushSyclQueue_nil R BETy DeviceTy DNum, setAsDefaultQueue_nil R BETy DeviceTy DNum⟩
  · intro ops s h
    exact run_nil R ops s h

/-- C16 witness: on the machine whose default device is a CUDA GPU the selector
(OpenCL, CPU, 0) is valid, and a push, a set-default and a pop with it leave the
empty seeded stack empty. -/
theorem C16_empty_stack_absorbing_witness :
    valid_selector cuda_default_runtime DPCTL_OPENCL DPCTL_CPU 0 = true ∧
      DPCTLQueueMgr_PushQueue cuda_default_runtime DPCTL_OPENCL DPCTL_CPU 0 [] =
        .ok (none, []) ∧
      DPCTLQueueMgr_SetAsDefaultQueue cuda_default_runtime DPCTL_OPENCL DPCTL_CPU 0 [] =
        .ok (none, []) ∧
      ∀ s, run cuda_default_runtime [Op.push_queue DPCTL_OPENCL DPCTL_CPU 0,
        Op.set_default_queue DPCTL_OPENCL DPCTL_CPU 0, Op.pop_queue, Op.get_current] [] =
          .ok s → s = [] :=
  ⟨by decide, ((C16_empty_stack_absorbing cuda_default_runtime).1 DPCTL_OPENCL DPCTL_CPU 0).1,
    ((C16_empty_stack_absorbing cuda_default_runtime).1 DPCTL_OPENCL DPCTL_CPU 0).2,
    fun s h => (C16_empty_stack_absorbing cuda_default_runtime).2.2.2.2.2 _ s h⟩

/-- C17: whenever the default device belongs to one of the enumerated non-host
platforms and its (backend, class) is one of the three supported pairs, every
list that `init_queues` returns for that pair is non-empty, so the unchecked
index `[0]` that `init_active_queues` uses is in bounds, for every platform
list, also when an earlier single-device platform matches and the enumeration
stops early; and when no enumerated non-host platform raises in `get_devices`,
`init_queues` does return and the stack is seeded with its first queue. -/
theorem C17_seeding_index_in_bounds (R : Runtime) (ps : List platform) (d : device)
    (k : SupportedPair) (Devices : List device)
    (hps : R.get_platforms = .ok ps) (hmem : R.get_platform d ∈ ps)
    (hhost : (R.get_platform d).is_host = false)
    (hdev : (R.get_platform d).get_devices = .ok Devices) (hd : d ∈ Devices)
    (hk : (R.get_platform d).get_backend = k.backend ∧ d.device_type = k.device_type) :
    (∀ qs, QMgrHelper.init_queues R k.backend k.device_type = .ok qs →
      qs ≠ [] ∧ ∃ q, QVec.subscript qs 0 = .ok q) ∧
    ((∀ p ∈ ps, p.is_host = false → ∃ ds, p.get_devices = .ok ds) →
      R.select_device = .ok d →
      ∃ q rest, QMgrHelper.init_queues R k.backend k.device_type = .ok (q :: rest) ∧
        QMgrHelper.init_active_queues R = .ok [q]) := by
  have hne : ∀ qs, QMgrHelper.init_queues R k.backend k.device_type = .ok qs → qs ≠ [] := by
    intro qs hqs
    simp only [QMgrHelper.init_queues, hps] at hqs
    have hlt := init_queues_loop_grows R.constructed k.backend k.device_type ps [] qs (R.get_platform d)
      Devices d hmem hhost hdev hd hk.2 hk.1 hqs
    intro h
    simp [h] at hlt
  refine ⟨?_, ?_⟩
  · intro qs hqs
    refine ⟨hne qs hqs, ?_⟩
    cases qs with
    | nil => exact absurd rfl (hne [] hqs)
    | cons q rest => exact ⟨q, by simp [QVec.subscript]⟩
  · intro hok hsel
    obtain ⟨qs, hqs⟩ := init_queues_loop_returns R.constructed k.backend k.device_type ps [] hok
    have hinit : QMgrHelper.init_queues R k.backend k.device_type = .ok qs := by
      simp only [QMgrHelper.init_queues, hps]
      exact hqs
    cases qs with
    | nil => exact absurd rfl (hne [] hinit)
    | cons q rest =>
      refine ⟨q, rest, hinit, ?_⟩
      apply init_active_queues_of_try_ok
      rw [init_active_queues_try_supported R d k hsel hk, supported_pair_queues_eq, hinit]
      simp [Except.bind, QVec.subscript]

/-- C17 witness: on the machine with two OpenCL CPU platforms whose default
device is the CPU of the second one, the enumeration stops at the first
platform, and the list is still non-empty: the stack is seeded with the queue of
the first platform. -/
theorem C17_seeding_index_in_bounds_witness :
    ∃ q rest, QMgrHelper.init_queues second_cpu_default_runtime backend.opencl
        device_type.cpu = .ok (q :: rest) ∧
      QMgrHelper.init_active_queues second_cpu_default_runtime = .ok [q] :=
  (C17_seeding_index_in_bounds second_cpu_default_runtime
    [sample_host_platform, sample_opencl_cpu_platform, sample_opencl_cpu_platform_b]
    sample_cpu_b SupportedPair.opencl_cpu [sample_cpu_b] rfl
    (by simp [second_cpu_default_runtime, sample_cpu_b]) rfl rfl (by simp)
    ⟨rfl, rfl⟩).2
    (by
      intro p hp _
      simp only [List.mem_cons, List.mem_singleton, List.not_mem_nil, or_false] at hp
      rcases hp with rfl | rfl | rfl
      · exact ⟨_, rfl⟩
      · exact ⟨_, rfl⟩
      · exact ⟨_, rfl⟩)
    rfl

theorem forall2_bound_to_mem (BE : backend) (DTy : device_type) (t : QVec)
    (sub : List platform) (h : List.Forall₂ (bound_to BE DTy) t sub) :
    (∀ q ∈ t, ∃ p ∈ sub, bound_to BE DTy q p) ∧ (∀ p ∈ sub, p.is_host = false) ∧
      t.length = sub.length := by
  induction h with
  | nil => simp
  | @cons q p t1 sub1 hqp _ ih =>
    refine ⟨?_, ?_, by simp [ih.2.2]⟩
    · intro x hx
      rcases List.mem_cons.mp hx with rfl | hx1
      · exact ⟨p, List.mem_cons_self p sub1, hqp⟩
      · obtain ⟨y, hy, hxy⟩ := ih.1 x hx1
        exact ⟨y, List.mem_cons_of_mem p hy, hxy⟩
    · intro y hy
      rcases List.mem_cons.mp hy with rfl | hy1
      · exact hqp.1
      · exact ih.2.1 y hy1

/-- C18: for every list of platforms and every (backend, class), each queue of
the list returned by `init_queues` is bound to a device of a non-host platform of
the list whose backend is the requested backend; the device has the requested
class and is a member of the device set of the context of the queue; the queues
correspond one to one, in order, to distinct non-host platforms of the list, so
there is at most one queue per non-host platform and the length of the list is
at most the number of non-host platforms.  When no non-host platform raises in
`get_devices`, `init_queues` returns such a list. -/
theorem C18_catalog_sound (R : Runtime) (ps : List platform) (BE : backend) (DTy : device_type)
    (hps : R.get_platforms = .ok ps) :
    (∀ qs, QMgrHelper.init_queues R BE DTy = .ok qs →
      (∀ q ∈ qs, ∃ p ∈ ps, bound_to BE DTy q p) ∧
      (∃ sub, sub.Sublist (ps.filter fun p => !p.is_host) ∧
        List.Forall₂ (bound_to BE DTy) qs sub) ∧
      qs.length ≤ (ps.filter fun p => !p.is_host).length) ∧
    ((∀ p ∈ ps, p.is_host = false → ∃ ds, p.get_devices = .ok ds) →
      ∃ qs, QMgrHelper.init_queues R BE DTy = .ok qs) := by
  refine ⟨?_, ?_⟩
  · intro qs hqs
    simp only [QMgrHelper.init_queues, hps] at hqs
    obtain ⟨t, sub, h1, h2, h3⟩ := init_queues_loop_sound R.constructed BE DTy ps [] qs hqs
    simp only [List.nil_append] at h1
    subst h1
    obtain ⟨hm, hnh, hlen⟩ := forall2_bound_to_mem BE DTy qs sub h3
    have hsub : sub.Sublist (ps.filter fun p => !p.is_host) := by
      have hf := List.Sublist.filter (fun p : platform => !p.is_host) h2
      have hself : sub.filter (fun p : platform => !p.is_host) = sub := by
        apply List.filter_eq_self.mpr
        intro p hp
        simp [hnh p hp]
      rwa [hself] at hf
    refine ⟨?_, ⟨sub, hsub, h3⟩, ?_⟩
    · intro q hq
      obtain ⟨p, hp, hqp⟩ := hm q hq
      exact ⟨p, h2.subset hp, hqp⟩
    · rw [hlen]
      exact hsub.length_le
  · intro hok
    obtain ⟨r, hr⟩ := init_queues_loop_returns R.constructed BE DTy ps [] hok
    exact ⟨r, by simp only [QMgrHelper.init_queues, hps]; exact hr⟩

/-- C18 witness: on the sample machine the OpenCL GPU list is the one queue of
the two-GPU platform, bound to that platform, and it is no longer than the three
non-host platforms. -/
theorem C18_catalog_sound_witness :
    (∀ q ∈ [sample_gpu_queue], ∃ p ∈ [sample_host_platform, sample_opencl_cpu_platform,
        sample_opencl_gpu_platform, sample_level0_platform],
      bound_to backend.opencl device_type.gpu q p) ∧
    (∃ sub, sub.Sublist ([sample_host_platform, sample_opencl_cpu_platform,
        sample_opencl_gpu_platform, sample_level0_platform].filter fun p => !p.is_host) ∧
      List.Forall₂ (bound_to backend.opencl device_type.gpu) [sample_gpu_queue] sub) ∧
    [sample_gpu_queue].length ≤ ([sample_host_platform, sample_opencl_cpu_platform,
        sample_opencl_gpu_platform, sample_level0_platform].filter fun p => !p.is_host).length :=
  (C18_catalog_sound sample_runtime [sample_host_platform, sample_opencl_cpu_platform,
    sample_opencl_gpu_platform, sample_level0_platform] backend.opencl device_type.gpu rfl).1
    [sample_gpu_queue] (by decide)

end DPCTL
